import Mathlib

/-!
Verification of the Edinburgh city-simulation stream engine.

This file is a shallow embedding, in Lean 4, of the core of the repository:
the event lifecycle manager (`src/lib/simulator/EventsManager.js` and the
older iteration embedded in `src/lib/simulation.js`), the traffic engine
(`src/lib/simulators/TrafficSimulator.js`), the weather engine
(`src/lib/simulator/WeatherSimulator.js`), and the orchestration layer
(`CitySimulation`).

Conventions of the embedding:

* Times are JavaScript epoch milliseconds, modelled as `Nat` (all simulated
  times in this system are after 1970).  Local time is modelled as UTC with
  no daylight-saving shifts, so `Date.prototype.getHours` becomes
  `t / msPerHour % 24`, the local calendar-date key `getDateKey` becomes the
  day number `t / msPerDay`, and `Date.prototype.setHours(h,0,0,0)` becomes
  "truncate to midnight, add `h` hours".  String date keys compare
  lexicographically exactly as the day numbers compare numerically.
* Every call to `Math.random()` becomes an explicit input (an oracle): the
  drawn template, the drawn hour offset, whether the stochastic generation
  trigger fired, the per-street jitter, and so on.  Theorems quantify over
  these inputs, constrained exactly to the ranges the JavaScript draws
  produce.
* JavaScript numbers are modelled as `ℚ`; `Math.round x` is `round x`
  (both are `⌊x + 1/2⌋`), `Math.floor` is `Int.floor`, and the truthiness
  test `x || d` on a number is `if x = 0 then d else x`.
* Fallible code returns `Except JsError`; a thrown exception is `.error`.
-/

/-- Milliseconds per simulated hour (`60 * 60 * 1000`). -/
def msPerHour : ℕ := 3600000

/-- Milliseconds per calendar day (`24 * 60 * 60 * 1000`). -/
def msPerDay : ℕ := 86400000

/-- Embeds `Date.prototype.getHours` (local time modelled as UTC): hour of
day in `0..23` of an epoch-milliseconds timestamp. -/
def getHoursOf (t : ℕ) : ℕ := t / msPerHour % 24

/-- Embeds `getDateKey` from `timeUtils`: the local calendar date of a
timestamp, as a day number.  The source renders the date as a
`YYYY-MM-DD` string; string order and equality agree with day-number
order and equality, which is all the manager uses. -/
def getDateKey (t : ℕ) : ℕ := t / msPerDay

/-- Embeds `Date.prototype.setHours(h, 0, 0, 0)`: truncate the timestamp to
local midnight and add `h` hours. -/
def setHoursOf (t h : ℕ) : ℕ := t / msPerDay * msPerDay + h * msPerHour

/-- Status of a simulated event; the string field `status` of the source. -/
inductive EventStatus where
  | scheduled
  | active
  | completed
deriving DecidableEq, Repr

/-- Rank of a status along the lifecycle `scheduled → active → completed`. -/
def EventStatus.rank : EventStatus → ℕ
  | .scheduled => 0
  | .active => 1
  | .completed => 2

/-- An event record as built by `EventsManager.generateRandomEvent`
(`src/lib/simulator/EventsManager.js`, lines 94-113).  Description and
location strings are dropped: no code path reads them back. -/
structure SimEvent where
  id : ℕ
  type : String
  name : String
  affected_datazones : List String
  impact_factor : ℚ
  start_hour : ℕ
  end_hour : ℕ
  duration_hours : ℕ
  scheduled_start_time : ℕ
  actual_start_time : Option ℕ
  actual_end_time : Option ℕ
  status : EventStatus
deriving DecidableEq, Repr

/-- An entry of the event catalog (`events_file` JSON), as consumed by
`generateRandomEvent`. -/
structure EventTemplate where
  type : String
  name : String
  affected_datazones : List String
  impact_factor : ℚ
  start_hour : ℕ
  end_hour : ℕ
  duration_hours : ℕ
deriving DecidableEq, Repr

namespace EventsManager

/-- Daily generation counts, the `dailyEventCounts : Map` of the source:
an association list from date key to count. -/
abbrev DailyCounts : Type := List (ℕ × ℕ)

/-- Embeds `this.dailyEventCounts.get(dateKey) || 0`. -/
def countGet (m : DailyCounts) (k : ℕ) : ℕ :=
  match m.find? (fun p => p.1 = k) with
  | some p => p.2
  | none => 0

/-- Embeds `this.dailyEventCounts.set(dateKey, v)`. -/
def countSet (m : DailyCounts) (k v : ℕ) : DailyCounts :=
  match m with
  | [] => [(k, v)]
  | p :: rest => if p.1 = k then (k, v) :: rest else p :: countSet rest k v

/-- Mutable state of an `EventsManager` instance
(`src/lib/simulator/EventsManager.js`, constructor lines 4-25).  The
configuration constants are fixed in the constructor and are embedded as
the definitions `maxEventsPerDay` etc. below. -/
structure State where
  scheduledEvents : List SimEvent
  activeEvents : List SimEvent
  completedEvents : List SimEvent
  eventIdCounter : ℕ
  dailyEventCounts : DailyCounts
  lastEventTime : Option ℕ
deriving Repr

/-- Constructor constant `this.minHoursInFuture = 48`. -/
def minHoursInFuture : ℕ := 48

/-- Constructor constant `this.maxHoursInFuture = 168`. -/
def maxHoursInFuture : ℕ := 168

/-- Constructor constant `this.maxCompletedEventsToKeep = 50`. -/
def maxCompletedEventsToKeep : ℕ := 50

/-- Constructor constant `this.maxEventsPerDay = 2`. -/
def maxEventsPerDay : ℕ := 2

/-- Constructor constant `this.maxConcurrentEvents = 3`. -/
def maxConcurrentEvents : ℕ := 3

/-- Constructor constant `this.minimumEventGap = 4` (hours). -/
def minimumEventGap : ℕ := 4

/-- The fresh state built by the constructor. -/
def initialState : State :=
  { scheduledEvents := []
    activeEvents := []
    completedEvents := []
    eventIdCounter := 1
    dailyEventCounts := []
    lastEventTime := none }

/-- Embeds `EventsManager.canGenerateNewEvent` (lines 62-82).  The source
computes `hoursSinceLastEvent = (currentTime - lastEventTime) / 3600000`
as a real number and tests `< minimumEventGap`; over epoch milliseconds
this is exactly `currentTime - lastEventTime < minimumEventGap * msPerHour`
(signed, hence the cast through `ℤ`). -/
def canGenerateNewEvent (s : State) (currentTime : ℕ) : Bool :=
  let dateKey := getDateKey currentTime
  let todayEventCount := countGet s.dailyEventCounts dateKey
  if todayEventCount ≥ maxEventsPerDay then false
  else if s.activeEvents.length ≥ maxConcurrentEvents then false
  else
    match s.lastEventTime with
    | some t =>
        if (currentTime : ℤ) - (t : ℤ) < (minimumEventGap * msPerHour : ℕ) then false
        else true
    | none => true

/-- Scheduled start computed by `EventsManager.generateRandomEvent`
(lines 87-92): `targetDate = currentTime + hoursInFuture` hours, then
`setHours(start_hour, 0, 0, 0)` snaps it to the template start hour on that
same calendar day.  There is no later adjustment in this version. -/
def eventStartTimeOf (currentTime hoursInFuture start_hour : ℕ) : ℕ :=
  setHoursOf (currentTime + hoursInFuture * msPerHour) start_hour

/-- Embeds `EventsManager.generateRandomEvent` (lines 84-123).  The drawn
template and the drawn `hoursInFuture` (which the source draws in
`[minHoursInFuture, maxHoursInFuture)`) are explicit inputs. -/
def generateRandomEvent (tmpl : EventTemplate) (hoursInFuture : ℕ)
    (s : State) (currentTime : ℕ) : State :=
  let eventStartTime := eventStartTimeOf currentTime hoursInFuture tmpl.start_hour
  let event : SimEvent :=
    { id := s.eventIdCounter
      type := tmpl.type
      name := tmpl.name
      affected_datazones := tmpl.affected_datazones
      impact_factor := tmpl.impact_factor
      start_hour := tmpl.start_hour
      end_hour := tmpl.end_hour
      duration_hours := tmpl.duration_hours
      scheduled_start_time := eventStartTime
      actual_start_time := none
      actual_end_time := none
      status := .scheduled }
  let dateKey := getDateKey currentTime
  { s with
    scheduledEvents := s.scheduledEvents ++ [event]
    eventIdCounter := s.eventIdCounter + 1
    dailyEventCounts := countSet s.dailyEventCounts dateKey
      (countGet s.dailyEventCounts dateKey + 1)
    lastEventTime := some currentTime }

/-- Embeds `EventsManager.generateInitialEvents` (lines 35-45): generate
one event per drawn `(template, hoursInFuture)` pair.  The source draws
`initialEventCount = 3 + Math.floor(Math.random() * 3)` pairs, so the list
has length 3, 4 or 5. -/
def generateInitialEvents (draws : List (EventTemplate × ℕ))
    (s : State) (currentTime : ℕ) : State :=
  draws.foldl (fun st d => generateRandomEvent d.1 d.2 st currentTime) s

/-- Activation condition of `activateScheduledEvents` (lines 128-132):
the scheduled start has been reached and the current hour matches the
template start hour. -/
def shouldActivate (currentTime : ℕ) (e : SimEvent) : Bool :=
  decide (e.scheduled_start_time ≤ currentTime) &&
    decide (getHoursOf currentTime = e.start_hour)

/-- Field updates of the activation loop (lines 134-138):
`actual_start_time := currentTime`,
`actual_end_time := currentTime + duration_hours` hours,
`status := active`. -/
def activateEvent (currentTime : ℕ) (e : SimEvent) : SimEvent :=
  { e with
    actual_start_time := some currentTime
    actual_end_time := some (currentTime + e.duration_hours * msPerHour)
    status := .active }

/-- Embeds `EventsManager.activateScheduledEvents` (lines 125-144).  The
source snapshots the events to activate, then moves each one by pushing it
onto `activeEvents` and filtering it out of `scheduledEvents` by id; with
distinct ids (which the manager maintains through its counter) this is
exactly the partition below. -/
def activateScheduledEvents (currentTime : ℕ) (s : State) : State :=
  { s with
    scheduledEvents := s.scheduledEvents.filter (fun e => !shouldActivate currentTime e)
    activeEvents := s.activeEvents ++
      (s.scheduledEvents.filter (shouldActivate currentTime)).map (activateEvent currentTime) }

/-- Expiry condition of `moveExpiredEventsToCompleted` (lines 147-149):
`actual_end_time` is set (truthy) and has been reached. -/
def isExpired (currentTime : ℕ) (e : SimEvent) : Bool :=
  match e.actual_end_time with
  | some t => decide (t ≤ currentTime)
  | none => false

/-- Embeds `EventsManager.moveExpiredEventsToCompleted` (lines 146-158). -/
def moveExpiredEventsToCompleted (currentTime : ℕ) (s : State) : State :=
  { s with
    activeEvents := s.activeEvents.filter (fun e => !isExpired currentTime e)
    completedEvents := s.completedEvents ++
      (s.activeEvents.filter (isExpired currentTime)).map
        (fun e => { e with status := .completed }) }

/-- Embeds `EventsManager.cleanupOldCompletedEvents` (lines 160-166):
when more than `maxCompletedEventsToKeep` completed events are held, the
oldest surplus is spliced off the front. -/
def cleanupOldCompletedEvents (s : State) : State :=
  if s.completedEvents.length > maxCompletedEventsToKeep then
    { s with completedEvents :=
        s.completedEvents.drop (s.completedEvents.length - maxCompletedEventsToKeep) }
  else s

/-- Embeds `EventsManager.cleanupDailyEventCounts` (lines 168-177): delete
every date key strictly before `currentTime - 7` days.  (`ℕ` subtraction
truncates at 0; simulated times are far above 7 days, and a smaller cutoff
only deletes fewer keys.) -/
def cleanupDailyEventCounts (currentTime : ℕ) (s : State) : State :=
  let cutoffKey := getDateKey (currentTime - 7 * msPerDay)
  { s with dailyEventCounts :=
      s.dailyEventCounts.filter (fun p => !decide (p.1 < cutoffKey)) }

/-- Embeds `EventsManager.processEventsForHour` (lines 47-60), state part:
activate, expire, clean up, then (rate limits and the stochastic 10%
trigger permitting) generate one event.  `genHit` is the outcome of
`Math.random() < eventGenerationChance`; `tmpl` and `hoursInFuture` are
the draws `generateRandomEvent` would consume. -/
def processEventsForHour (currentTime : ℕ) (genHit : Bool)
    (tmpl : EventTemplate) (hoursInFuture : ℕ) (s : State) : State :=
  let s1 := activateScheduledEvents currentTime s
  let s2 := moveExpiredEventsToCompleted currentTime s1
  let s3 := cleanupOldCompletedEvents s2
  let s4 := cleanupDailyEventCounts currentTime s3
  if canGenerateNewEvent s4 currentTime && genHit then
    generateRandomEvent tmpl hoursInFuture s4 currentTime
  else s4

/-- Embeds `EventsManager.generateMoreEvents` (lines 249-257): when fewer
than 3 events are scheduled, force-generate `1 + Math.floor(Math.random()*2)`
events (the drawn pairs are the explicit input; the source draws 1 or 2). -/
def generateMoreEvents (draws : List (EventTemplate × ℕ))
    (s : State) (currentTime : ℕ) : State :=
  if s.scheduledEvents.length < 3 then
    draws.foldl (fun st d => generateRandomEvent d.1 d.2 st currentTime) s
  else s

/-- All events held by the manager, in view order (scheduled, active,
completed), as merged by `getAllEventsWithStatus`. -/
def allEvents (s : State) : List SimEvent :=
  s.scheduledEvents ++ s.activeEvents ++ s.completedEvents

end EventsManager

namespace LegacySim

/-- Scheduled start computed by the older `generateRandomEvent` in
`src/lib/simulation.js` (lines 681-723): same snap as the
`EventsManager.js` version, but if the snapped time falls short of
`currentTime + minHoursInFuture` hours it is pushed one calendar day
later (`setDate(getDate() + 1)`, one day in the no-DST model). -/
def eventStartTimeOf (currentTime hoursInFuture start_hour : ℕ) : ℕ :=
  let eventStartTime :=
    setHoursOf (currentTime + hoursInFuture * msPerHour) start_hour
  let minimumStartTime := currentTime + EventsManager.minHoursInFuture * msPerHour
  if eventStartTime < minimumStartTime then eventStartTime + msPerDay
  else eventStartTime

end LegacySim

/-- Embeds JavaScript `Math.round`: round half toward positive infinity,
which is exactly Mathlib's `round` (`⌊x + 1/2⌋`). -/
def jsRound (x : ℚ) : ℤ := round x

/-- Embeds `Math.round(x * 100) / 100` (round to two decimals). -/
def round2 (x : ℚ) : ℚ := (jsRound (x * 100) : ℚ) / 100

/-- Embeds `Math.round(x * 10) / 10` (round to one decimal). -/
def round1 (x : ℚ) : ℚ := (jsRound (x * 10) : ℚ) / 10

/-- Embeds the JavaScript numeric truthiness pattern `x || d`: a zero
number is falsy and replaced by the default. -/
def jsOrNum (x d : ℚ) : ℚ := if x = 0 then d else x

/-- Embeds `Date.prototype.getDay` in the no-DST model: day of week with
0 = Sunday.  The epoch (1970-01-01) was a Thursday, day 4. -/
def getDayOf (t : ℕ) : ℕ := (t / msPerDay + 4) % 7

namespace TrafficSimulator

/-- A zone as held in `this.datazones` after `initializeWithDatazones`
(`src/lib/simulators/TrafficSimulator.js`, lines 19-39), restricted to the
fields `simulateNextHour` reads.  `baseline_congestion`, `area_type` and
`traffic_capacity` are whatever initialization computed; the per-tick
claims hold for arbitrary values of them. -/
structure TrafficZone where
  datazone_code : String
  dominant_street_type : String
  street_ids : List String
  baseline_congestion : ℚ
  area_type : String
  traffic_capacity : ℚ
deriving DecidableEq, Repr

/-- Weather fields read by the traffic engine. -/
structure WeatherInput where
  condition : String
  windSpeed : ℚ
deriving DecidableEq, Repr

/-- Per-zone record of the tick output (lines 103-110). -/
structure ZoneResult where
  datazone_code : String
  datazone_congestion : ℚ
  street_ids : List String
  street_congestion : List (String × ℚ)
  area_type : String
  congestion_trend : ℚ
deriving DecidableEq, Repr

/-- Tick output of `simulateNextHour` (lines 116-126); the ISO timestamp
string is represented by the numeric time. -/
structure TrafficResult where
  congestion_level : ℚ
  average_speed : ℚ
  total_vehicles : ℤ
  peak_hour : Bool
  weather_impact : ℚ
  events_impact : ℚ
  datazones : List ZoneResult
  simulation_time : ℕ
  weekend_mode : Bool
deriving DecidableEq, Repr

/-- Embeds `PEAK_HOUR_MULTIPLIERS` from `src/lib/utils/constants.js`. -/
def PEAK_HOUR_MULTIPLIERS (roadType : String) : Option ℚ :=
  if roadType = "primary" then some (5/2)
  else if roadType = "secondary" then some (11/5)
  else if roadType = "tertiary" then some (9/5)
  else if roadType = "trunk" then some (14/5)
  else if roadType = "motorway" then some 3
  else if roadType = "residential" then some (13/10)
  else if roadType = "unclassified" then some (6/5)
  else if roadType = "service" then some (11/10)
  else none

/-- Embeds `AREA_MULTIPLIERS` from `src/lib/utils/constants.js`. -/
def AREA_MULTIPLIERS (areaType : String) : Option ℚ :=
  if areaType = "major_transport_hub" then some (9/5)
  else if areaType = "commercial_arterial" then some (8/5)
  else if areaType = "mixed_development" then some (7/5)
  else if areaType = "dense_residential" then some (6/5)
  else if areaType = "suburban_residential" then some (11/10)
  else if areaType = "mixed_local" then some (13/10)
  else none

/-- Embeds `WEEKEND_MULTIPLIERS` from `src/lib/utils/constants.js`. -/
def WEEKEND_MULTIPLIERS (areaType : String) : Option ℚ :=
  if areaType = "major_transport_hub" then some (7/10)
  else if areaType = "commercial_arterial" then some (3/5)
  else if areaType = "mixed_development" then some (4/5)
  else if areaType = "dense_residential" then some (9/10)
  else if areaType = "suburban_residential" then some (11/10)
  else if areaType = "mixed_local" then some (17/20)
  else none

/-- Embeds `getPeakMultiplierForArea` (lines 274-278); the `|| default`
fallbacks fire exactly on unknown keys since every table value is
nonzero. -/
def getPeakMultiplierForArea (areaType dominantRoadType : String) : ℚ :=
  let areaMultiplier := (AREA_MULTIPLIERS areaType).getD (13/10)
  let roadMultiplier := (PEAK_HOUR_MULTIPLIERS dominantRoadType).getD (6/5)
  (roadMultiplier + areaMultiplier) / 2

/-- Embeds `getWeekendMultiplierForArea` (lines 280-282). -/
def getWeekendMultiplierForArea (areaType : String) : ℚ :=
  (WEEKEND_MULTIPLIERS areaType).getD (4/5)

/-- The per-zone event-impact map built by `calculateZoneEventImpacts`,
modelled as a partial function from datazone code to stored number. -/
abbrev ZoneImpactMap : Type := String → Option ℚ

/-- Embeds the numeric truthiness of `v || 1.0` on an optional stored
value: an absent key and a stored zero both yield 1.0. -/
def jsOrOneOpt (o : Option ℚ) : ℚ :=
  match o with
  | some v => if v = 0 then 1 else v
  | none => 1

/-- Embeds `zoneImpacts.get(code) || 1.0`.  (Stored values are in fact
always ≥ 1.) -/
def zmLookup (m : ZoneImpactMap) (code : String) : ℚ := jsOrOneOpt (m code)

/-- The impact an event contributes at position `i` of its
`affected_datazones` list (lines 174-183): the primary zone (index 0)
gets `1 + impact_factor`, later zones a fraction decayed by
`max(0.3, 1 - i * 0.1)`; a falsy `impact_factor` defaults to 0.3. -/
def eventZoneImpact (e : SimEvent) (i : ℕ) : ℚ :=
  let f := jsOrNum e.impact_factor (3/10)
  if i = 0 then 1 + f
  else 1 + f * max (3/10) (1 - (i : ℚ) / 10)

/-- One `zoneImpacts.set(code, Math.max(zoneImpacts.get(code) || 1.0, v))`
store. -/
def zmStore (m : ZoneImpactMap) (code : String) (v : ℚ) : ZoneImpactMap :=
  fun c => if c = code then some (max (zmLookup m code) v) else m c

/-- The inner loop of `calculateZoneEventImpacts` over one event's
affected zones, with their indices. -/
def applyEventImpacts (e : SimEvent) (m : ZoneImpactMap) : ZoneImpactMap :=
  e.affected_datazones.enum.foldl
    (fun acc p => zmStore acc p.2 (eventZoneImpact e p.1)) m

/-- Embeds `calculateZoneEventImpacts` (lines 161-190). -/
def calculateZoneEventImpacts (events : List SimEvent) : ZoneImpactMap :=
  events.foldl (fun m e => applyEventImpacts e m) (fun _ => none)

/-- The individual impacts contributed to zone `code` by a list of events:
one entry per occurrence of `code` in an event's affected list, evaluated
at its index.  (A specification-side enumeration used to state what the
map construction computes.) -/
def individualImpacts (events : List SimEvent) (code : String) : List ℚ :=
  events.foldr
    (fun e acc =>
      (e.affected_datazones.enum.filter (fun p => p.2 = code)).map
        (fun p => eventZoneImpact e p.1) ++ acc) []

/-- Traffic factors computed once per tick by `calculateTrafficFactors`
(lines 129-159). -/
structure TrafficFactors where
  timeMultiplier : ℚ
  weatherMultiplier : ℚ
  eventsMultiplier : ℚ
  zoneEventImpacts : ZoneImpactMap

/-- Embeds `calculateTrafficFactors` (lines 129-159).  The branch order of
the hour table matches the source (`7-9`, then `16-18`, then
`≥22 ∨ ≤5`, then `10-15`, default 1.0). -/
def calculateTrafficFactors (hour : ℕ) (weather : WeatherInput)
    (events : List SimEvent) : TrafficFactors :=
  let timeMultiplier : ℚ :=
    if 7 ≤ hour ∧ hour ≤ 9 then 8/5
    else if 16 ≤ hour ∧ hour ≤ 18 then 9/5
    else if 22 ≤ hour ∨ hour ≤ 5 then 3/10
    else if 10 ≤ hour ∧ hour ≤ 15 then 4/5
    else 1
  let weatherMultiplier : ℚ :=
    if weather.condition = "rainy" then 7/5
    else if weather.condition = "snowy" then 11/5
    else if weather.condition = "stormy" then 9/5
    else if weather.condition = "sunny" then 19/20
    else 1
  let weatherMultiplier :=
    if weather.windSpeed > 30 then weatherMultiplier * (6/5) else weatherMultiplier
  let eventsMultiplier : ℚ :=
    events.foldl (fun acc e => acc + jsOrNum e.impact_factor (1/5) * (1/10)) 1
  { timeMultiplier := timeMultiplier
    weatherMultiplier := weatherMultiplier
    eventsMultiplier := eventsMultiplier
    zoneEventImpacts := calculateZoneEventImpacts events }

/-- The clamp of line 85: `Math.max(0.1, Math.min(10.0, c))`. -/
def clampCongestion (c : ℚ) : ℚ := max (1/10) (min 10 c)

/-- The zone congestion product of lines 62-75: baseline times
time-of-day/peak (weekday) or weekend multiplier, times weather, times the
zone's event impact. -/
def zoneCongestionPreMomentum (factors : TrafficFactors) (isWeekend : Bool)
    (z : TrafficZone) : ℚ :=
  let c := z.baseline_congestion
  let c :=
    if !isWeekend then
      c * (factors.timeMultiplier *
        getPeakMultiplierForArea z.area_type z.dominant_street_type)
    else c * getWeekendMultiplierForArea z.area_type
  let c := c * factors.weatherMultiplier
  c * zmLookup factors.zoneEventImpacts z.datazone_code

/-- The previous tick's value for this zone, if any
(`previousTrafficData.datazones.find(...)`, line 78). -/
def prevZoneOf (prev : Option TrafficResult) (code : String) : Option ZoneResult :=
  match prev with
  | some p => p.datazones.find? (fun pz => pz.datazone_code = code)
  | none => none

/-- The clamped per-zone congestion of lines 62-85: the fresh product,
blended 70/30 with the previous tick's value when one exists, then clamped
to the valid range. -/
def zoneCongestionClamped (factors : TrafficFactors) (isWeekend : Bool)
    (prev : Option TrafficResult) (z : TrafficZone) : ℚ :=
  let c := zoneCongestionPreMomentum factors isWeekend z
  let c :=
    match prevZoneOf prev z.datazone_code with
    | some pz => c * (7/10) + pz.datazone_congestion * (3/10)
    | none => c
  clampCongestion c

/-- The congestion trend of lines 87-89: the rounded delta against the
previous tick's value for the zone, where a missing (or falsy-zero)
previous value falls back to the current value, and 0 when there was no
previous tick at all. -/
def zoneTrend (factors : TrafficFactors) (isWeekend : Bool)
    (prev : Option TrafficResult) (z : TrafficZone) : ℚ :=
  match prev with
  | none => 0
  | some _ =>
      let c := zoneCongestionClamped factors isWeekend prev z
      let prevC :=
        match prevZoneOf prev z.datazone_code with
        | some pz => jsOrNum pz.datazone_congestion c
        | none => c
      round2 (c - prevC)

/-- Embeds `calculateStreetCongestion` (lines 209-220): per-street jitter
`0.7 + Math.random() * 0.6`, the draw supplied per street id by the
oracle `r`. -/
def calculateStreetCongestion (streetIds : List String) (zoneCongestion : ℚ)
    (r : String → ℚ) : List (String × ℚ) :=
  streetIds.map (fun streetId =>
    (streetId, round2 (zoneCongestion * (7/10 + r streetId * (3/5)))))

/-- The derived per-zone speed of line 92: `Math.max(5, 50 - c * 8)`. -/
def zoneSpeed (c : ℚ) : ℚ := max 5 (50 - c * 8)

/-- The per-zone vehicle estimate of line 93, with the `Math.random()`
draw supplied per zone code by the oracle `vr`. -/
def zoneVehicles (c : ℚ) (z : TrafficZone) (vr : String → ℚ) : ℤ :=
  jsRound (c * z.traffic_capacity * (4/5 + vr z.datazone_code * (2/5)))

/-- Random draws consumed by one traffic tick: the per-street jitter draw
and the per-zone vehicle draw. -/
structure TrafficRand where
  streetRand : String → ℚ
  vehicleRand : String → ℚ

/-- The per-zone output record built at lines 103-110. -/
def zoneResultOf (factors : TrafficFactors) (isWeekend : Bool)
    (prev : Option TrafficResult) (o : TrafficRand) (z : TrafficZone) :
    ZoneResult :=
  let c := zoneCongestionClamped factors isWeekend prev z
  { datazone_code := z.datazone_code
    datazone_congestion := round2 c
    street_ids := z.street_ids
    street_congestion := calculateStreetCongestion z.street_ids c o.streetRand
    area_type := z.area_type
    congestion_trend := zoneTrend factors isWeekend prev z }

/-- The successful body of `TrafficSimulator.simulateNextHour` (lines
50-126).  The running totals of the source's single pass are expressed as
sums over the same per-zone values. -/
def simulateNextHourResult (datazones : List TrafficZone)
    (currentTime : ℕ) (weather : WeatherInput) (events : List SimEvent)
    (previousTrafficData : Option TrafficResult) (o : TrafficRand) :
    TrafficResult :=
    let hour := getHoursOf currentTime
    let dayOfWeek := getDayOf currentTime
    let isWeekend := dayOfWeek = 0 || dayOfWeek = 6
    let factors := calculateTrafficFactors hour weather events
    let congestions := datazones.map
      (zoneCongestionClamped factors isWeekend previousTrafficData)
    let totalCongestion := congestions.sum
    let totalSpeed := (congestions.map zoneSpeed).sum
    let totalVehicles := (datazones.map (fun z =>
      zoneVehicles (zoneCongestionClamped factors isWeekend previousTrafficData z)
        z o.vehicleRand)).sum
    let peakHourDetected := decide (datazones ≠ []) && decide (factors.timeMultiplier > 3/2)
    let updatedDatazones := datazones.map
      (zoneResultOf factors isWeekend previousTrafficData o)
    let averageCongestion := totalCongestion / (datazones.length : ℚ)
    let averageSpeed := totalSpeed / (datazones.length : ℚ)
    { congestion_level := round2 averageCongestion
      average_speed := round1 averageSpeed
      total_vehicles := totalVehicles
      peak_hour := peakHourDetected
      weather_impact := round2 factors.weatherMultiplier
      events_impact := round2 factors.eventsMultiplier
      datazones := updatedDatazones
      simulation_time := currentTime
      weekend_mode := isWeekend }

/-- Embeds `TrafficSimulator.simulateNextHour` (lines 45-127):
`isInitialized = false` reproduces the thrown not-initialized error;
otherwise the tick result above is returned. -/
def simulateNextHour (datazones : List TrafficZone) (isInitialized : Bool)
    (currentTime : ℕ) (weather : WeatherInput) (events : List SimEvent)
    (previousTrafficData : Option TrafficResult) (o : TrafficRand) :
    Except String TrafficResult :=
  if !isInitialized then .error "traffic simulator not initialized"
  else .ok (simulateNextHourResult datazones currentTime weather events
    previousTrafficData o)

end TrafficSimulator

/-- A thrown JavaScript exception.  `typeError` is the runtime TypeError
raised by dereferencing `null`/`undefined`. -/
inductive JsError where
  | typeError
  | thrown (msg : String)
deriving DecidableEq, Repr

/-- Embeds `String.prototype.includes`: substring membership, via
`splitOn` (a nonempty pattern occurs iff splitting on it yields more than
one part). -/
def includesSub (s pat : String) : Bool := (s.splitOn pat).length ≠ 1

/-- Month of a day number (days since 1970-01-01), 0-based as in
`Date.prototype.getMonth`, by the standard civil-from-days conversion
(valid for all days ≥ 0). -/
def civilMonth0 (days : ℕ) : ℕ :=
  let z := days + 719468
  let doe := z % 146097
  let yoe := (doe - doe / 1460 + doe / 36524 - doe / 146096) / 365
  let doy := doe - (365 * yoe + yoe / 4 - yoe / 100)
  let mp := (5 * doy + 2) / 153
  if mp < 10 then mp + 2 else mp - 10

/-- Embeds `getSeason` from `timeUtils` (month 0-based). -/
def getSeason (t : ℕ) : String :=
  let month := civilMonth0 (t / msPerDay)
  if 2 ≤ month ∧ month ≤ 4 then "spring"
  else if 5 ≤ month ∧ month ≤ 7 then "summer"
  else if 8 ≤ month ∧ month ≤ 10 then "autumn"
  else "winter"

/-- Embeds `getSeasonalTemp` from `timeUtils`. -/
def getSeasonalTemp (season : String) : ℚ :=
  if season = "spring" then 10
  else if season = "summer" then 18
  else if season = "autumn" then 12
  else 4

namespace WeatherSimulator

/-- One parsed row of `weather_data.csv` (fields the engine reads).  The
map key — the raw datetime string, at seconds resolution — is the epoch
milliseconds `datetime` (a multiple of 1000). -/
structure WRecord where
  datetime : ℤ
  temperature : ℚ
  humidity : ℚ
  precipitation : ℚ
  windSpeed : ℚ
  conditions : String
deriving DecidableEq, Repr

/-- Mutable state of a `WeatherSimulator` instance
(`src/lib/simulator/WeatherSimulator.js`, constructor lines 10-21, and
`initialize`).  After a failed `initialize`, `isLoaded = false` and
`baseHistoricalDate = none` (the constructor value `null`). -/
structure State where
  cityId : String
  weatherData : List WRecord
  isLoaded : Bool
  baseHistoricalDate : Option ℤ
  simulationStartTime : Option ℕ
deriving Repr

/-- Per-city offsets of `getCityWeatherVariations` (lines 137-164), as
(tempOffset, humidityOffset, windOffset). -/
def getCityWeatherVariations (cityId : String) : ℚ × ℚ × ℚ :=
  if cityId = "edinburgh" then (-1, 2, 1)
  else if cityId = "york" then (1/2, -1, -1/2)
  else if cityId = "london" then (2, -3, -1)
  else if cityId = "manchester" then (0, 3, 1/2)
  else (0, 0, 0)

/-- Embeds `mapConditionToSimulation` (lines 204-215): substring rules on
the lowercased historical condition string, in source order. -/
def mapConditionToSimulation (conditions : String) : String :=
  let c := conditions.toLower
  if includesSub c "rain" then "rainy"
  else if includesSub c "snow" then "snowy"
  else if includesSub c "storm" || includesSub c "thunder" then "stormy"
  else if includesSub c "clear" || includesSub c "sunny" then "sunny"
  else if includesSub c "cloud" || includesSub c "overcast" then "cloudy"
  else if includesSub c "partly" then "partly_cloudy"
  else "partly_cloudy"

/-- Embeds `estimatePressure` (lines 217-231): three independent keyword
adjustments to the 1013.25 base. -/
def estimatePressure (conditions : String) : ℚ :=
  let c := conditions.toLower
  let basePressure : ℚ := 101325/100
  let basePressure := if includesSub c "rain" then basePressure - 10 else basePressure
  let basePressure := if includesSub c "storm" then basePressure - 20 else basePressure
  let basePressure := if includesSub c "clear" then basePressure + 5 else basePressure
  round1 basePressure

/-- A weather sample as returned to the orchestrator; `precipitation` is
absent (`none`) on the fallback path, and `source` carries the provenance
tag. -/
structure WeatherSample where
  temperature : ℚ
  humidity : ℚ
  windSpeed : ℚ
  condition : String
  pressure : ℚ
  precipitation : Option ℚ
  source : String
deriving DecidableEq, Repr

/-- Embeds the exact-key lookup of `getWeatherForDateTime` (lines
166-174): the target's ISO string truncated to seconds equals a stored
key.  With keys at whole seconds this is equality after truncating the
target to the second. -/
def exactMatch (records : List WRecord) (target : ℤ) : Option WRecord :=
  records.find? (fun r => r.datetime = target - target % 1000)

/-- Embeds `findClosestWeatherData` (lines 176-202): scan in insertion
order keeping the record with the strictly smallest absolute offset below
the 60-second tolerance; `none` models the throw when no record
qualifies. -/
def findClosestWeatherData (records : List WRecord) (target : ℤ) :
    Option WRecord :=
  (records.foldl
    (fun best r =>
      let diff := (r.datetime - target).natAbs
      match best with
      | some b => if diff < b.2 ∧ diff < 60000 then some (r, diff) else some b
      | none => if diff < 60000 then some (r, diff) else none)
    none).map (fun b => b.1)

/-- Embeds `getWeatherForDateTime`: exact match, else nearest within
tolerance; `none` is the thrown no-data error (always caught by
`simulateForTime`). -/
def getWeatherForDateTime (records : List WRecord) (target : ℤ) :
    Option WRecord :=
  match exactMatch records target with
  | some r => some r
  | none => findClosestWeatherData records target

/-- The historical-path sample of lines 116-127, from a found record and
the per-city offsets. -/
def historicalSample (cityId : String) (rec : WRecord) : WeatherSample :=
  let v := getCityWeatherVariations cityId
  { temperature := round1 (rec.temperature + v.1)
    humidity := (jsRound (max 0 (min 100 (rec.humidity + v.2.1))) : ℚ)
    windSpeed := round1 (max 0 (rec.windSpeed + v.2.2))
    condition := mapConditionToSimulation rec.conditions
    pressure := estimatePressure rec.conditions
    precipitation := some rec.precipitation
    source := "historical_1min_uk_" ++ cityId }

/-- Rational stand-ins for the IEEE values of
`Math.sin((hour - 6) * Math.PI / 12)` at the 24 integer hours (the only
arguments the fallback generator ever passes), to four decimals.  No
claim in this development depends on these values. -/
def timeOfDayFactor (hour : ℕ) : ℚ :=
  let k := (hour : ℤ) - 6
  let s : ℕ → ℚ := fun n =>
    if n = 0 then 0
    else if n = 1 then 2588/10000
    else if n = 2 then 5000/10000
    else if n = 3 then 7071/10000
    else if n = 4 then 8660/10000
    else if n = 5 then 9659/10000
    else if n = 6 then 1
    else if n = 7 then 9659/10000
    else if n = 8 then 8660/10000
    else if n = 9 then 7071/10000
    else if n = 10 then 5000/10000
    else if n = 11 then 2588/10000
    else 0
  if k < 0 then -(s k.natAbs)
  else if k ≤ 12 then s k.natAbs
  else -(s (k.natAbs - 12))

/-- The four `Math.random()` draws of `generateFallbackWeather`, each in
[0, 1). -/
structure WeatherRand where
  tempRand : ℚ
  humidityRand : ℚ
  windRand : ℚ
  pressureRand : ℚ

/-- Embeds `determineCondition` (lines 261-268); the `season` parameter is
accepted and ignored exactly as in the source. -/
def determineCondition (temperature humidity windSpeed : ℚ) (_season : String) :
    String :=
  if humidity > 85 ∧ temperature > 2 then "rainy"
  else if humidity > 70 ∧ windSpeed > 15 then "stormy"
  else if temperature < 2 ∧ humidity > 80 then "snowy"
  else if humidity < 30 then "sunny"
  else if humidity > 60 then "cloudy"
  else "partly_cloudy"

/-- Embeds `generateFallbackWeather` (lines 233-259).  The condition is
derived from the raw (pre-rounding) temperature/humidity/wind values, and
the humidity clamp is applied after rounding, both as in the source. -/
def generateFallbackWeather (cityId : String) (currentTime : ℕ)
    (o : WeatherRand) : WeatherSample :=
  let hour := getHoursOf currentTime
  let season := getSeason currentTime
  let tf := timeOfDayFactor hour
  let seasonalTemp := getSeasonalTemp season
  let baseTemp := seasonalTemp + tf * 8
  let v := getCityWeatherVariations cityId
  let temperature := baseTemp + v.1 + (o.tempRand - 1/2) * 4
  let humidity := 60 + v.2.1 + (1 - tf) * 25 + (o.humidityRand - 1/2) * 20
  let windSpeed := max 0 (5 + v.2.2 + (o.windRand - 1/2) * 15)
  let condition := determineCondition temperature humidity windSpeed season
  let pressure := 1013 + (o.pressureRand - 1/2) * 40
  { temperature := round1 temperature
    humidity := (max 0 (min 100 (jsRound humidity)) : ℤ)
    windSpeed := round1 windSpeed
    condition := condition
    pressure := round1 pressure
    precipitation := none
    source := "fallback_generated_uk_" ++ cityId }

/-- Embeds `WeatherSimulator.simulateForTime` (lines 100-135).  The
returned state carries the `simulationStartTime` mutation.  Crucially, the
`this.baseHistoricalDate.getTime()` dereference of line 108 happens
before the `try` block: when the dataset failed to load
(`baseHistoricalDate = null`) the call throws a TypeError instead of
reaching the fallback.  Inside the `try`, a failed lookup is caught and
answered with the fallback sample. -/
def simulateForTime (w : State) (requestedSimulationTime : ℕ)
    (o : WeatherRand) : State × Except JsError WeatherSample :=
  let w :=
    if w.simulationStartTime = none then
      { w with simulationStartTime := some requestedSimulationTime }
    else w
  match w.baseHistoricalDate with
  | none => (w, .error .typeError)
  | some base =>
      let start := w.simulationStartTime.getD requestedSimulationTime
      let simulationElapsed : ℤ := (requestedSimulationTime : ℤ) - (start : ℤ)
      let historicalDateTime := base + simulationElapsed
      match getWeatherForDateTime w.weatherData historicalDateTime with
      | some rec => (w, .ok (historicalSample w.cityId rec))
      | none => (w, .ok (generateFallbackWeather w.cityId requestedSimulationTime o))

end WeatherSimulator

namespace CitySimulation

open TrafficSimulator WeatherSimulator

/-- The composed tick snapshot (`simulationData`, `src/unnamed/part_001`
lines 243-256).  The events view is carried as its status counts; the
city-name / id strings and the wall-clock timestamp are constant
decoration and are omitted. -/
structure SimData where
  hour : ℕ
  timestamp : ℕ
  weather : WeatherSample
  events_active_count : ℕ
  events_scheduled_count : ℕ
  events_completed_count : ℕ
  traffic : TrafficResult
deriving Repr

/-- Mutable state of a `CitySimulation` instance (`src/unnamed/part_001`,
constructor lines 7-39).  The traffic simulator's state is its initialized
flag plus its datazone list; the Foundry sink configuration is excluded by
the specification's scope and modelled as absent. -/
structure State where
  isRunning : Bool
  currentTime : ℕ
  simulationHour : ℕ
  hourCounter : ℕ
  secondsPerHour : ℕ
  weatherSim : WeatherSimulator.State
  eventsSim : EventsManager.State
  trafficDatazones : List TrafficZone
  trafficInitialized : Bool
  previousWeather : Option WeatherSample
  previousTraffic : Option TrafficResult
  readyHourData : Option SimData
  isInitialized : Bool
  isGenerating : Bool
  dashboardControlledTime : Option ℕ
deriving Repr

/-- All random draws consumed by one call to `generateNextHourData`: the
fallback-weather draws, the event-generation trigger and its draws, the
traffic jitter draws, and the draws of a 24-hourly `generateMoreEvents`. -/
structure TickOracle where
  weatherRand : WeatherRand
  genHit : Bool
  tmpl : EventTemplate
  hoursInFuture : ℕ
  trafficRand : TrafficRand
  moreDraws : List (EventTemplate × ℕ)

/-- Target-time resolution of `generateNextHourData` (lines 214-223): a
dashboard-requested time is adopted and remembered; otherwise a remembered
dashboard time is reused; otherwise the instance clock advances by one
hour. -/
def resolveTargetTime (s : State) (dashboardRequestedTime : Option ℕ) :
    State × ℕ :=
  match dashboardRequestedTime with
  | some t => ({ s with dashboardControlledTime := some t }, t)
  | none =>
      match s.dashboardControlledTime with
      | some t => (s, t)
      | none =>
          let ct := s.currentTime + msPerHour
          ({ s with currentTime := ct }, ct)

/-- The values computed by a tick that are published at commit time. -/
structure TickPending where
  targetTime : ℕ
  weather : WeatherSample
  events_active_count : ℕ
  events_scheduled_count : ℕ
  events_completed_count : ℕ
  traffic : TrafficResult
deriving Repr

/-- The weather fields the traffic engine reads from a sample. -/
def weatherInputOf (w : WeatherSample) : WeatherInput :=
  { condition := w.condition, windSpeed := w.windSpeed }

/-- The computation phase of `generateNextHourData` (lines 214-237): clock
and counters, weather (which may throw, line 228), event processing, and
traffic (which may throw when uninitialized) — everything up to the last
`await` of the tick.  Mutations made before a throw persist in the
returned state, as they do in the source. -/
def tickCompute (s : State) (dashboardRequestedTime : Option ℕ)
    (o : TickOracle) : State × Except JsError TickPending :=
  let (s, targetTime) := resolveTargetTime s dashboardRequestedTime
  let s := { s with
    hourCounter := s.hourCounter + 1
    simulationHour := getHoursOf targetTime }
  let (w, weatherRes) := simulateForTime s.weatherSim targetTime o.weatherRand
  let s := { s with weatherSim := w }
  match weatherRes with
  | .error e => (s, .error e)
  | .ok weather =>
      let es := EventsManager.processEventsForHour targetTime o.genHit o.tmpl
        o.hoursInFuture s.eventsSim
      let s := { s with eventsSim := es }
      let activeEvents := es.activeEvents
      match simulateNextHour s.trafficDatazones s.trafficInitialized targetTime
        (weatherInputOf weather) activeEvents s.previousTraffic o.trafficRand with
      | .error msg => (s, .error (.thrown msg))
      | .ok traffic =>
          (s, .ok
            { targetTime := targetTime
              weather := weather
              events_active_count := es.activeEvents.length
              events_scheduled_count := es.scheduledEvents.length
              events_completed_count := es.completedEvents.length
              traffic := traffic })

/-- The publication phase of `generateNextHourData` (lines 239-266): the
synchronous block after the last `await` resolves.  It stores the previous
weather/traffic, sets the clock to the target time, writes the ready
buffer — without consulting `isRunning` — and every 24th hour
force-generates events.  (The optional Foundry push between the buffer
write and the force-generation is an external sink and is not modelled.) -/
def tickCommit (s : State) (p : TickPending)
    (moreDraws : List (EventTemplate × ℕ)) : State × SimData :=
  let d : SimData :=
    { hour := getHoursOf p.targetTime
      timestamp := p.targetTime
      weather := p.weather
      events_active_count := p.events_active_count
      events_scheduled_count := p.events_scheduled_count
      events_completed_count := p.events_completed_count
      traffic := p.traffic }
  let s := { s with
    previousWeather := some p.weather
    previousTraffic := some p.traffic
    currentTime := p.targetTime
    readyHourData := some d }
  let s :=
    if s.hourCounter % 24 = 0 then
      { s with eventsSim :=
          EventsManager.generateMoreEvents moreDraws s.eventsSim p.targetTime }
    else s
  (s, d)

/-- Embeds `CitySimulation.generateNextHourData` (lines 205-282) run to
completion without interleaving: the guard check and early return, the
guard set, the computation, the commit on success, and the
`finally` clearing the guard on both the success and the throw path. -/
def generateNextHourData (s : State) (dashboardRequestedTime : Option ℕ)
    (o : TickOracle) : State × Option SimData :=
  if s.isGenerating then (s, none)
  else
    let (s1, r) := tickCompute { s with isGenerating := true }
      dashboardRequestedTime o
    match r with
    | .error _ => ({ s1 with isGenerating := false }, none)
    | .ok p =>
        let (s2, d) := tickCommit s1 p o.moreDraws
        ({ s2 with isGenerating := false }, some d)

/-- Embeds `CitySimulation.stop` (lines 450-460): on a running instance,
flip off the running and initialized flags and clear the ready buffer;
on a stopped instance, a no-op. -/
def stop (s : State) : State :=
  if s.isRunning then
    { s with isRunning := false, isInitialized := false, readyHourData := none }
  else s

/-- Embeds `CitySimulation.updateTimeCompression` (lines 462-465). -/
def updateTimeCompression (s : State) (secondsPerHour : ℕ) : State :=
  { s with secondsPerHour := secondsPerHour }

/-- Per-zone record of the API snapshot (lines 361-369 and 411-419): the
stored zone result plus the derived `estimated_vehicles` and
`average_speed`, both computed from the zone's rounded congestion. -/
structure ApiZone where
  datazone_code : String
  datazone_congestion : ℚ
  street_congestion : List (String × ℚ)
  area_type : String
  congestion_trend : ℚ
  estimated_vehicles : ℤ
  average_speed : ℚ
deriving DecidableEq, Repr

/-- The zone mapping of `getDataAndAdvance` / `getCurrentSnapshot`:
`estimated_vehicles = Math.round(c * 50)` and
`average_speed = Math.max(5, 50 - c * 8)`. -/
def apiZoneView (z : ZoneResult) : ApiZone :=
  { datazone_code := z.datazone_code
    datazone_congestion := z.datazone_congestion
    street_congestion := z.street_congestion
    area_type := z.area_type
    congestion_trend := z.congestion_trend
    estimated_vehicles := jsRound (z.datazone_congestion * 50)
    average_speed := max 5 (50 - z.datazone_congestion * 8) }

/-- The response body assembled by `getDataAndAdvance` (lines 331-371),
restricted to the simulation fields (identity and wall-clock strings
omitted). -/
structure ApiResponse where
  timestamp : ℕ
  hour : ℕ
  is_running : Bool
  weather : WeatherSample
  events_active_count : ℕ
  events_scheduled_count : ℕ
  events_completed_count : ℕ
  traffic_congestion_level : ℚ
  traffic_average_speed : ℚ
  traffic_total_vehicles : ℤ
  traffic_peak_hour : Bool
  traffic_datazones : List ApiZone
deriving Repr

/-- The response built from a ready snapshot (shared by
`getDataAndAdvance` and `getCurrentSnapshot`). -/
def responseOf (s : State) (d : SimData) : ApiResponse :=
  { timestamp := d.timestamp
    hour := s.simulationHour
    is_running := s.isRunning
    weather := d.weather
    events_active_count := d.events_active_count
    events_scheduled_count := d.events_scheduled_count
    events_completed_count := d.events_completed_count
    traffic_congestion_level := d.traffic.congestion_level
    traffic_average_speed := d.traffic.average_speed
    traffic_total_vehicles := d.traffic.total_vehicles
    traffic_peak_hour := d.traffic.peak_hour
    traffic_datazones := d.traffic.datazones.map apiZoneView }

/-- Embeds the synchronous part of `CitySimulation.getDataAndAdvance`
(lines 314-372): the not-running and not-ready guards and the response
built from the current ready buffer.  The background
`generateNextHourData()` it spawns (line 325) is a separate step of the
trace model — it is exactly the `generateNextHourData` above. -/
def getDataAndAdvance (s : State) : Except JsError ApiResponse :=
  if !s.isRunning then .error (.thrown "simulation is not running")
  else if !s.isInitialized || s.readyHourData.isNone then
    .error (.thrown "no simulation data available yet")
  else
    match s.readyHourData with
    | some d => .ok (responseOf s d)
    | none => .error (.thrown "no simulation data available yet")

end CitySimulation

section RoundLemmas

/-- `jsRound` is monotone (both sides are `⌊· + 1/2⌋`). -/
lemma jsRound_mono {x y : ℚ} (h : x ≤ y) : jsRound x ≤ jsRound y := by
  unfold jsRound
  rw [round_eq, round_eq]
  exact Int.floor_le_floor (by linarith)

/-- Lower bound through two-decimal rounding, at a hundredth endpoint. -/
lemma le_round2 (k : ℤ) {x : ℚ} (h : (k : ℚ) / 100 ≤ x) :
    (k : ℚ) / 100 ≤ round2 x := by
  have hk : k ≤ ⌊x * 100 + 1/2⌋ := Int.le_floor.mpr (by linarith)
  have hk2 : (k : ℚ) ≤ (⌊x * 100 + 1/2⌋ : ℚ) := by exact_mod_cast hk
  unfold round2 jsRound
  rw [round_eq]
  linarith

/-- Upper bound through two-decimal rounding, at a hundredth endpoint. -/
lemma round2_le (k : ℤ) {x : ℚ} (h : x ≤ (k : ℚ) / 100) :
    round2 x ≤ (k : ℚ) / 100 := by
  have h1 : (⌊x * 100 + 1/2⌋ : ℚ) ≤ x * 100 + 1/2 := Int.floor_le _
  have h2 : ⌊x * 100 + 1/2⌋ < k + 1 := by
    have : (⌊x * 100 + 1/2⌋ : ℚ) < (k : ℚ) + 1 := by linarith
    exact_mod_cast this
  have h3 : (⌊x * 100 + 1/2⌋ : ℚ) ≤ (k : ℚ) := by
    exact_mod_cast Int.lt_add_one_iff.mp h2
  unfold round2 jsRound
  rw [round_eq]
  linarith

/-- Lower bound through one-decimal rounding, at a tenth endpoint. -/
lemma le_round1 (k : ℤ) {x : ℚ} (h : (k : ℚ) / 10 ≤ x) :
    (k : ℚ) / 10 ≤ round1 x := by
  have hk : k ≤ ⌊x * 10 + 1/2⌋ := Int.le_floor.mpr (by linarith)
  have hk2 : (k : ℚ) ≤ (⌊x * 10 + 1/2⌋ : ℚ) := by exact_mod_cast hk
  unfold round1 jsRound
  rw [round_eq]
  linarith

/-- Upper bound through one-decimal rounding, at a tenth endpoint. -/
lemma round1_le (k : ℤ) {x : ℚ} (h : x ≤ (k : ℚ) / 10) :
    round1 x ≤ (k : ℚ) / 10 := by
  have h1 : (⌊x * 10 + 1/2⌋ : ℚ) ≤ x * 10 + 1/2 := Int.floor_le _
  have h2 : ⌊x * 10 + 1/2⌋ < k + 1 := by
    have : (⌊x * 10 + 1/2⌋ : ℚ) < (k : ℚ) + 1 := by linarith
    exact_mod_cast this
  have h3 : (⌊x * 10 + 1/2⌋ : ℚ) ≤ (k : ℚ) := by
    exact_mod_cast Int.lt_add_one_iff.mp h2
  unfold round1 jsRound
  rw [round_eq]
  linarith

/-- Sums of lists bounded below, element by element. -/
lemma mul_length_le_sum {l : List ℚ} {a : ℚ} (h : ∀ x ∈ l, a ≤ x) :
    a * l.length ≤ l.sum := by
  induction l with
  | nil => simp
  | cons y t ih =>
      have hy := h y (List.mem_cons_self _ _)
      have ht := ih (fun x hx => h x (List.mem_cons_of_mem _ hx))
      simp only [List.sum_cons, List.length_cons]
      push_cast
      linarith

/-- Sums of lists bounded above, element by element. -/
lemma sum_le_mul_length {l : List ℚ} {b : ℚ} (h : ∀ x ∈ l, x ≤ b) :
    l.sum ≤ b * l.length := by
  induction l with
  | nil => simp
  | cons y t ih =>
      have hy := h y (List.mem_cons_self _ _)
      have ht := ih (fun x hx => h x (List.mem_cons_of_mem _ hx))
      simp only [List.sum_cons, List.length_cons]
      push_cast
      linarith

/-- The mean of a nonempty list lies between elementwise bounds. -/
lemma mean_mem_of_bounds {l : List ℚ} {a b : ℚ} (hne : l ≠ [])
    (h : ∀ x ∈ l, a ≤ x ∧ x ≤ b) :
    a ≤ l.sum / l.length ∧ l.sum / l.length ≤ b := by
  have hlen : 0 < (l.length : ℚ) := by
    have : 0 < l.length := List.length_pos.mpr hne
    exact_mod_cast this
  have h1 : a * l.length ≤ l.sum := mul_length_le_sum (fun x hx => (h x hx).1)
  have h2 : l.sum ≤ b * l.length := sum_le_mul_length (fun x hx => (h x hx).2)
  constructor
  · rw [le_div_iff₀ hlen]; linarith
  · rw [div_le_iff₀ hlen]; linarith

end RoundLemmas

namespace TrafficSimulator

/-- The clamp keeps every input inside the valid range. -/
lemma clampCongestion_bounds (c : ℚ) :
    1/10 ≤ clampCongestion c ∧ clampCongestion c ≤ 10 := by
  unfold clampCongestion
  exact ⟨le_max_left _ _, max_le (by norm_num) (min_le_left _ _)⟩

/-- Every per-zone clamped congestion lies in the valid range. -/
lemma zoneCongestionClamped_bounds (factors : TrafficFactors) (isWeekend : Bool)
    (prev : Option TrafficResult) (z : TrafficZone) :
    1/10 ≤ zoneCongestionClamped factors isWeekend prev z ∧
      zoneCongestionClamped factors isWeekend prev z ≤ 10 := by
  unfold zoneCongestionClamped
  exact clampCongestion_bounds _

/-- Reading off the datazone list of a tick result. -/
lemma simulateNextHourResult_datazones (zs : List TrafficZone) (now : ℕ)
    (w : WeatherInput) (es : List SimEvent) (prev : Option TrafficResult)
    (o : TrafficRand) :
    (simulateNextHourResult zs now w es prev o).datazones =
      zs.map (zoneResultOf (calculateTrafficFactors (getHoursOf now) w es)
        (decide (getDayOf now = 0) || decide (getDayOf now = 6)) prev o) := rfl

/-- Reading off the aggregate average speed of a tick result. -/
lemma simulateNextHourResult_average_speed (zs : List TrafficZone) (now : ℕ)
    (w : WeatherInput) (es : List SimEvent) (prev : Option TrafficResult)
    (o : TrafficRand) :
    (simulateNextHourResult zs now w es prev o).average_speed =
      round1 (((zs.map (zoneCongestionClamped
          (calculateTrafficFactors (getHoursOf now) w es)
          (decide (getDayOf now = 0) || decide (getDayOf now = 6)) prev)).map
            zoneSpeed).sum / (zs.length : ℚ)) := by
  unfold simulateNextHourResult
  simp

/-- A successful tick determines the result record. -/
lemma simulateNextHour_ok {zs : List TrafficZone} {now : ℕ}
    {w : WeatherInput} {es : List SimEvent} {prev : Option TrafficResult}
    {o : TrafficRand} {r : TrafficResult}
    (h : simulateNextHour zs true now w es prev o = Except.ok r) :
    r = simulateNextHourResult zs now w es prev o := by
  unfold simulateNextHour at h
  simp only [Bool.not_true, Bool.false_eq_true, if_false, Except.ok.injEq] at h
  exact h.symm

end TrafficSimulator

/-- C2: after every call to `TrafficSimulator.simulateNextHour` on an
initialized simulator, every zone's reported `datazone_congestion` lies in
the configured valid range [0.1, 10.0], for arbitrary weather, wind,
active events, hour of day, and previous-tick data. -/
theorem claim_C2_congestion_in_valid_range
    (zs : List TrafficSimulator.TrafficZone) (now : ℕ)
    (w : TrafficSimulator.WeatherInput) (es : List SimEvent)
    (prev : Option TrafficSimulator.TrafficResult) (o : TrafficSimulator.TrafficRand)
    (r : TrafficSimulator.TrafficResult)
    (h : TrafficSimulator.simulateNextHour zs true now w es prev o = Except.ok r) :
    ∀ z ∈ r.datazones, 1/10 ≤ z.datazone_congestion ∧ z.datazone_congestion ≤ 10 := by
  intro z hz
  rw [TrafficSimulator.simulateNextHour_ok h,
    TrafficSimulator.simulateNextHourResult_datazones] at hz
  obtain ⟨z0, _, rfl⟩ := List.mem_map.mp hz
  show 1/10 ≤ round2 (TrafficSimulator.zoneCongestionClamped _ _ _ _) ∧
    round2 (TrafficSimulator.zoneCongestionClamped _ _ _ _) ≤ 10
  obtain ⟨h1, h2⟩ := TrafficSimulator.zoneCongestionClamped_bounds
    (TrafficSimulator.calculateTrafficFactors (getHoursOf now) w es)
    (decide (getDayOf now = 0) || decide (getDayOf now = 6)) prev z0
  constructor
  · have h10 : ((10 : ℤ) : ℚ) / 100 ≤ TrafficSimulator.zoneCongestionClamped
        (TrafficSimulator.calculateTrafficFactors (getHoursOf now) w es)
        (decide (getDayOf now = 0) || decide (getDayOf now = 6)) prev z0 := by
      push_cast; linarith
    calc (1 : ℚ)/10 = ((10 : ℤ) : ℚ) / 100 := by norm_num
      _ ≤ _ := le_round2 10 h10
  · have h1000 : TrafficSimulator.zoneCongestionClamped
        (TrafficSimulator.calculateTrafficFactors (getHoursOf now) w es)
        (decide (getDayOf now = 0) || decide (getDayOf now = 6)) prev z0
          ≤ ((1000 : ℤ) : ℚ) / 100 := by
      push_cast; linarith
    calc round2 _ ≤ ((1000 : ℤ) : ℚ) / 100 := round2_le 1000 h1000
      _ = 10 := by norm_num

/-- A concrete initialized traffic zone used to exercise the theorems. -/
def cZone : TrafficSimulator.TrafficZone :=
  { datazone_code := "S01008677"
    dominant_street_type := "primary"
    street_ids := ["s1"]
    baseline_congestion := 1
    area_type := "mixed_local"
    traffic_capacity := 100 }

/-- A concrete weather input. -/
def cWeather : TrafficSimulator.WeatherInput :=
  { condition := "sunny", windSpeed := 0 }

/-- Concrete traffic random draws (all 1/2). -/
def cTrafficRand : TrafficSimulator.TrafficRand :=
  { streetRand := fun _ => 1/2, vehicleRand := fun _ => 1/2 }

instance : Inhabited TrafficSimulator.ZoneResult :=
  ⟨{ datazone_code := ""
     datazone_congestion := 0
     street_ids := []
     street_congestion := []
     area_type := ""
     congestion_trend := 0 }⟩

/-- The concrete tick result on `cZone` at epoch time 0. -/
def c2Result : TrafficSimulator.TrafficResult :=
  TrafficSimulator.simulateNextHourResult [cZone] 0 cWeather [] none cTrafficRand

/-- Its (unique) per-zone record. -/
def c2Zone0 : TrafficSimulator.ZoneResult :=
  TrafficSimulator.zoneResultOf
    (TrafficSimulator.calculateTrafficFactors (getHoursOf 0) cWeather [])
    (decide (getDayOf 0 = 0) || decide (getDayOf 0 = 6)) none cTrafficRand cZone

/-- Witness for C2 at the concrete zone. -/
theorem claim_C2_congestion_in_valid_range_witness :
    1/10 ≤ c2Zone0.datazone_congestion ∧ c2Zone0.datazone_congestion ≤ 10 :=
  claim_C2_congestion_in_valid_range [cZone] 0 cWeather [] none cTrafficRand
    c2Result rfl c2Zone0
    (by rw [show c2Result.datazones = [c2Zone0] from rfl]
        exact List.mem_singleton_self _)

namespace TrafficSimulator

/-- Every zone record of a tick result has congestion in the valid range. -/
lemma resultZone_congestion_bounds {zs : List TrafficZone} {now : ℕ}
    {w : WeatherInput} {es : List SimEvent} {prev : Option TrafficResult}
    {o : TrafficRand} :
    ∀ z ∈ (simulateNextHourResult zs now w es prev o).datazones,
      1/10 ≤ z.datazone_congestion ∧ z.datazone_congestion ≤ 10 := by
  intro z hz
  rw [simulateNextHourResult_datazones] at hz
  obtain ⟨z0, _, rfl⟩ := List.mem_map.mp hz
  obtain ⟨h1, h2⟩ := zoneCongestionClamped_bounds
    (calculateTrafficFactors (getHoursOf now) w es)
    (decide (getDayOf now = 0) || decide (getDayOf now = 6)) prev z0
  constructor
  · have h10 : ((10 : ℤ) : ℚ) / 100 ≤ zoneCongestionClamped
        (calculateTrafficFactors (getHoursOf now) w es)
        (decide (getDayOf now = 0) || decide (getDayOf now = 6)) prev z0 := by
      push_cast; linarith
    calc (1 : ℚ)/10 = ((10 : ℤ) : ℚ) / 100 := by norm_num
      _ ≤ _ := le_round2 10 h10
  · have h1000 : zoneCongestionClamped
        (calculateTrafficFactors (getHoursOf now) w es)
        (decide (getDayOf now = 0) || decide (getDayOf now = 6)) prev z0
          ≤ ((1000 : ℤ) : ℚ) / 100 := by
      push_cast; linarith
    calc round2 _ ≤ ((1000 : ℤ) : ℚ) / 100 := round2_le 1000 h1000
      _ = 10 := by norm_num

/-- The derived speed lies in [5, 49.2] whenever the congestion it is
computed from lies in the valid range. -/
lemma zoneSpeed_bounds {c : ℚ} (h1 : 1/10 ≤ c) (_h2 : c ≤ 10) :
    5 ≤ zoneSpeed c ∧ zoneSpeed c ≤ 246/5 := by
  unfold zoneSpeed
  exact ⟨le_max_left _ _, max_le (by norm_num) (by linarith)⟩

/-- The derived speed is non-increasing in congestion. -/
lemma zoneSpeed_antitone {c₁ c₂ : ℚ} (h : c₁ ≤ c₂) :
    zoneSpeed c₂ ≤ zoneSpeed c₁ := by
  unfold zoneSpeed
  exact max_le (le_max_left _ _) (le_trans (by linarith) (le_max_right _ _))

end TrafficSimulator

/-- C10: in every traffic result produced after initialization, each
zone's derived speed (the `average_speed` field of the API zone view,
`Math.max(5, 50 - c * 8)`) and the aggregate `average_speed` lie in
[5, 49.2], and the derived speed is a non-increasing function of the
zone's congestion. -/
theorem claim_C10_speed_bounds
    (zs : List TrafficSimulator.TrafficZone) (now : ℕ)
    (w : TrafficSimulator.WeatherInput) (es : List SimEvent)
    (prev : Option TrafficSimulator.TrafficResult) (o : TrafficSimulator.TrafficRand)
    (r : TrafficSimulator.TrafficResult) (hne : zs ≠ [])
    (h : TrafficSimulator.simulateNextHour zs true now w es prev o = Except.ok r) :
    (∀ z ∈ r.datazones,
      5 ≤ (CitySimulation.apiZoneView z).average_speed ∧
        (CitySimulation.apiZoneView z).average_speed ≤ 246/5) ∧
    (5 ≤ r.average_speed ∧ r.average_speed ≤ 246/5) ∧
    (∀ c₁ c₂ : ℚ, c₁ ≤ c₂ →
      TrafficSimulator.zoneSpeed c₂ ≤ TrafficSimulator.zoneSpeed c₁) := by
  have hr := TrafficSimulator.simulateNextHour_ok h
  subst hr
  refine ⟨?_, ?_, fun c₁ c₂ hc => TrafficSimulator.zoneSpeed_antitone hc⟩
  · intro z hz
    obtain ⟨h1, h2⟩ := TrafficSimulator.resultZone_congestion_bounds z hz
    show 5 ≤ TrafficSimulator.zoneSpeed z.datazone_congestion ∧
      TrafficSimulator.zoneSpeed z.datazone_congestion ≤ 246/5
    exact TrafficSimulator.zoneSpeed_bounds h1 h2
  · rw [TrafficSimulator.simulateNextHourResult_average_speed]
    set l := (zs.map (TrafficSimulator.zoneCongestionClamped
      (TrafficSimulator.calculateTrafficFactors (getHoursOf now) w es)
      (decide (getDayOf now = 0) || decide (getDayOf now = 6)) prev)).map
        TrafficSimulator.zoneSpeed with hl
    have hlen : (zs.length : ℚ) = (l.length : ℚ) := by
      simp [hl]
    have hlne : l ≠ [] := by
      simp [hl]
      exact hne
    have hbounds : ∀ x ∈ l, 5 ≤ x ∧ x ≤ 246/5 := by
      intro x hx
      rw [hl] at hx
      obtain ⟨c, hc, rfl⟩ := List.mem_map.mp hx
      obtain ⟨c0, _, rfl⟩ := List.mem_map.mp hc
      obtain ⟨hb1, hb2⟩ := TrafficSimulator.zoneCongestionClamped_bounds
        (TrafficSimulator.calculateTrafficFactors (getHoursOf now) w es)
        (decide (getDayOf now = 0) || decide (getDayOf now = 6)) prev c0
      exact TrafficSimulator.zoneSpeed_bounds hb1 hb2
    obtain ⟨hm1, hm2⟩ := mean_mem_of_bounds hlne hbounds
    rw [hlen]
    constructor
    · calc (5 : ℚ) = ((50 : ℤ) : ℚ) / 10 := by norm_num
        _ ≤ _ := le_round1 50 (by push_cast; linarith)
    · calc round1 _ ≤ ((492 : ℤ) : ℚ) / 10 := round1_le 492 (by push_cast; linarith)
        _ = 246/5 := by norm_num

/-- Witness for C10 at the concrete tick. -/
theorem claim_C10_speed_bounds_witness :
    (5 ≤ (CitySimulation.apiZoneView c2Zone0).average_speed ∧
      (CitySimulation.apiZoneView c2Zone0).average_speed ≤ 246/5) ∧
    (5 ≤ c2Result.average_speed ∧ c2Result.average_speed ≤ 246/5) :=
  ⟨(claim_C10_speed_bounds [cZone] 0 cWeather [] none cTrafficRand c2Result
      (by decide) rfl).1 c2Zone0
      (by rw [show c2Result.datazones = [c2Zone0] from rfl]
          exact List.mem_singleton_self _),
    (claim_C10_speed_bounds [cZone] 0 cWeather [] none cTrafficRand c2Result
      (by decide) rfl).2.1⟩

namespace LegacySim

/-- Mutable event state of the older `EventsManager` in
`src/lib/simulation.js` (constructor lines 567-582), restricted to the
fields its `generateRandomEvent` touches.  That version keeps no daily
counts and no last-generation time. -/
structure State where
  scheduledEvents : List SimEvent
  activeEvents : List SimEvent
  completedEvents : List SimEvent
  eventIdCounter : ℕ
deriving Repr

/-- Embeds the older `generateRandomEvent` (`src/lib/simulation.js`,
lines 681-723); its `datazones` field is carried in
`affected_datazones`.  Unlike the `EventsManager.js` version, the snapped
start time is pushed one day later when it falls short of
`currentTime + minHoursInFuture` hours. -/
def generateRandomEvent (tmpl : EventTemplate) (hoursInFuture : ℕ)
    (s : State) (currentTime : ℕ) : State :=
  let eventStartTime := eventStartTimeOf currentTime hoursInFuture tmpl.start_hour
  let event : SimEvent :=
    { id := s.eventIdCounter
      type := tmpl.type
      name := tmpl.name
      affected_datazones := tmpl.affected_datazones
      impact_factor := tmpl.impact_factor
      start_hour := tmpl.start_hour
      end_hour := tmpl.end_hour
      duration_hours := tmpl.duration_hours
      scheduled_start_time := eventStartTime
      actual_start_time := none
      actual_end_time := none
      status := .scheduled }
  { s with
    scheduledEvents := s.scheduledEvents ++ [event]
    eventIdCounter := s.eventIdCounter + 1 }

/-- With `hoursInFuture ≥ 48`, the legacy start-time computation (snap,
then push a day when short) is always at least 48 hours ahead. -/
lemma eventStartTimeOf_ge {currentTime hoursInFuture start_hour : ℕ}
    (h : EventsManager.minHoursInFuture ≤ hoursInFuture) :
    currentTime + EventsManager.minHoursInFuture * msPerHour ≤
      eventStartTimeOf currentTime hoursInFuture start_hour := by
  unfold eventStartTimeOf setHoursOf
  have hmod : (currentTime + hoursInFuture * msPerHour) % msPerDay < msPerDay :=
    Nat.mod_lt _ (by norm_num [msPerDay])
  have hdm : msPerDay * ((currentTime + hoursInFuture * msPerHour) / msPerDay) +
      (currentTime + hoursInFuture * msPerHour) % msPerDay =
      currentTime + hoursInFuture * msPerHour :=
    Nat.div_add_mod _ _
  simp only [EventsManager.minHoursInFuture, msPerHour, msPerDay] at *
  split <;> omega

end LegacySim

/-- A concrete event-catalog template (start hour midnight). -/
def cTmpl : EventTemplate :=
  { type := "festival"
    name := "Fringe"
    affected_datazones := ["S01008677"]
    impact_factor := 1/2
    start_hour := 0
    end_hour := 6
    duration_hours := 6 }

/-- C1, counterexample: the `EventsManager.js` generator, called at noon of
day 0 with the valid draw `hoursInFuture = 48` and a template whose
`start_hour` is 0, schedules the event at midnight of day 2 — only 36
hours ahead, short of the claimed 48-hour minimum (the day-push of the
older generator is absent from this version). -/
theorem claim_C1_counterexample :
    ((EventsManager.generateRandomEvent cTmpl 48 EventsManager.initialState
        (12 * msPerHour)).scheduledEvents.map (fun e => e.scheduled_start_time))
      = [172800000] ∧
    172800000 < 12 * msPerHour + EventsManager.minHoursInFuture * msPerHour := by
  constructor
  · rfl
  · decide

/-- C1, amended: the 48-hour guarantee holds for the older generator in
`src/lib/simulation.js`, which pushes a short snapped time one calendar
day later; every event it appends is either a pre-existing scheduled event
or starts at least `minHoursInFuture` hours after generation time.  (The
`EventsManager.js` generator omits the push and violates the bound, per
the counterexample.) -/
theorem claim_C1_amended (tmpl : EventTemplate) (hoursInFuture : ℕ)
    (s : LegacySim.State) (currentTime : ℕ)
    (hmin : EventsManager.minHoursInFuture ≤ hoursInFuture) :
    ∀ e ∈ (LegacySim.generateRandomEvent tmpl hoursInFuture s currentTime).scheduledEvents,
      e ∈ s.scheduledEvents ∨
        currentTime + EventsManager.minHoursInFuture * msPerHour ≤
          e.scheduled_start_time := by
  intro e he
  simp only [LegacySim.generateRandomEvent, List.mem_append,
    List.mem_singleton] at he
  rcases he with h1 | h2
  · exact Or.inl h1
  · right
    subst h2
    exact LegacySim.eventStartTimeOf_ge hmin

/-- The concrete event generated by the legacy generator at noon of day 0
with draw 48 and template `cTmpl`. -/
def cLegacyEvent : SimEvent :=
  { id := 1
    type := cTmpl.type
    name := cTmpl.name
    affected_datazones := cTmpl.affected_datazones
    impact_factor := cTmpl.impact_factor
    start_hour := cTmpl.start_hour
    end_hour := cTmpl.end_hour
    duration_hours := cTmpl.duration_hours
    scheduled_start_time := LegacySim.eventStartTimeOf (12 * msPerHour) 48 cTmpl.start_hour
    actual_start_time := none
    actual_end_time := none
    status := .scheduled }

/-- Witness for the amended C1 at the concrete legacy generation. -/
theorem claim_C1_amended_witness :
    cLegacyEvent ∈ (⟨[], [], [], 1⟩ : LegacySim.State).scheduledEvents ∨
      12 * msPerHour + EventsManager.minHoursInFuture * msPerHour ≤
        cLegacyEvent.scheduled_start_time :=
  claim_C1_amended cTmpl 48 ⟨[], [], [], 1⟩ (12 * msPerHour) (by decide)
    cLegacyEvent
    (by rw [show (LegacySim.generateRandomEvent cTmpl 48 ⟨[], [], [], 1⟩
          (12 * msPerHour)).scheduledEvents = [cLegacyEvent] from rfl]
        exact List.mem_singleton_self _)

/-- Concrete fallback-weather random draws (all 1/2). -/
def cWeatherRand : WeatherSimulator.WeatherRand :=
  { tempRand := 1/2, humidityRand := 1/2, windRand := 1/2, pressureRand := 1/2 }

/-- The weather state left by a failed `initialize()`: `isLoaded = false`
and `baseHistoricalDate` still `null`. -/
def failedWeatherState : WeatherSimulator.State :=
  { cityId := "edinburgh"
    weatherData := []
    isLoaded := false
    baseHistoricalDate := none
    simulationStartTime := none }

/-- A weather state whose dataset loaded but holds no record near the
anchor (so every lookup misses the 60-second tolerance). -/
def loadedEmptyWeatherState : WeatherSimulator.State :=
  { cityId := "edinburgh"
    weatherData := []
    isLoaded := true
    baseHistoricalDate := some 1000000000000
    simulationStartTime := none }

/-- C5: the claim says `simulateForTime` never raises an error — that a
failed dataset load and a tolerance miss both yield a synthesized
fallback sample.  The tolerance-miss half is true (second conjunct), but
after a failed load the `baseHistoricalDate.getTime()` dereference of
line 108 sits outside the `try` and throws a TypeError to the caller
(first conjunct), contradicting the engine's own "using fallback
generation" warning.  The code, not the claim, is at fault. -/
theorem claim_C5_never_raises_code_bug :
    (WeatherSimulator.simulateForTime failedWeatherState 1700000000000
        cWeatherRand).2 = Except.error JsError.typeError ∧
    (WeatherSimulator.simulateForTime loadedEmptyWeatherState 1700000000000
        cWeatherRand).2 = Except.ok
      (WeatherSimulator.generateFallbackWeather "edinburgh" 1700000000000
        cWeatherRand) :=
  ⟨rfl, rfl⟩

/-- A concrete historical weather record at the anchor instant. -/
def cWeatherRecord : WeatherSimulator.WRecord :=
  { datetime := 1000000000000
    temperature := 10
    humidity := 50
    precipitation := 0
    windSpeed := 5
    conditions := "Clear" }

/-- A weather state with a loaded dataset whose single record sits exactly
at the anchor. -/
def cLoadedWeatherState : WeatherSimulator.State :=
  { cityId := "edinburgh"
    weatherData := [cWeatherRecord]
    isLoaded := true
    baseHistoricalDate := some 1000000000000
    simulationStartTime := none }

/-- A concrete running, initialized simulation instance. -/
def cSimState : CitySimulation.State :=
  { isRunning := true
    currentTime := 1700000000000 - 3600000
    simulationHour := 9
    hourCounter := 0
    secondsPerHour := 10
    weatherSim := cLoadedWeatherState
    eventsSim := EventsManager.initialState
    trafficDatazones := [cZone]
    trafficInitialized := true
    previousWeather := none
    previousTraffic := none
    readyHourData := none
    isInitialized := true
    isGenerating := false
    dashboardControlledTime := none }

/-- The same instance with a tick computation in flight. -/
def cBusySimState : CitySimulation.State := { cSimState with isGenerating := true }

/-- Concrete random draws for one orchestrator tick. -/
def cTickOracle : CitySimulation.TickOracle :=
  { weatherRand := cWeatherRand
    genHit := false
    tmpl := cTmpl
    hoursInFuture := 48
    trafficRand := cTrafficRand
    moreDraws := [] }

/-- C8: the generation guard is checked before any mutation — a call that
observes `isGenerating` returns the state unchanged with no data — and it
is cleared on every exit path of a call that does run (the `finally`),
whether the tick computation succeeds or throws. -/
theorem claim_C8_generation_guard (s : CitySimulation.State)
    (dash : Option ℕ) (o : CitySimulation.TickOracle) :
    (s.isGenerating = true →
      CitySimulation.generateNextHourData s dash o = (s, none)) ∧
    (s.isGenerating = false →
      (CitySimulation.generateNextHourData s dash o).1.isGenerating = false) := by
  constructor
  · intro h
    simp [CitySimulation.generateNextHourData, h]
  · intro h
    simp only [CitySimulation.generateNextHourData, h, Bool.false_eq_true,
      if_false]
    rcases hr : CitySimulation.tickCompute { s with isGenerating := true } dash o
      with ⟨s1, r⟩
    cases r <;> simp

/-- Witness for C8: the guard short-circuits on the busy instance and is
cleared after a full tick on the idle one. -/
theorem claim_C8_generation_guard_witness :
    CitySimulation.generateNextHourData cBusySimState none cTickOracle
      = (cBusySimState, none) ∧
    (CitySimulation.generateNextHourData cSimState none cTickOracle).1.isGenerating
      = false :=
  ⟨(claim_C8_generation_guard cBusySimState none cTickOracle).1 rfl,
    (claim_C8_generation_guard cSimState none cTickOracle).2 rfl⟩

/-- The computation phase of a tick that was in flight on the concrete
instance when `stop()` ran. -/
def c7Compute : CitySimulation.State × Except JsError CitySimulation.TickPending :=
  CitySimulation.tickCompute cBusySimState none cTickOracle

/-- The state after that in-flight tick completes against the stopped
instance: `stop` between the tick's last `await` and its commit. -/
def c7Afterward : Option CitySimulation.State :=
  match c7Compute.2 with
  | .ok p => some (CitySimulation.tickCommit (CitySimulation.stop c7Compute.1) p []).1
  | .error _ => none

/-- C7, counterexample: `stop()` does clear the buffer, but the commit of
the tick that was already in flight writes its result into the stopped
instance's buffer (`readyHourData.isSome = true` while
`isRunning = false`), because the commit never consults the running
state. -/
theorem claim_C7_counterexample :
    (CitySimulation.stop c7Compute.1).readyHourData = none ∧
    (CitySimulation.stop c7Compute.1).isRunning = false ∧
    c7Afterward.map (fun st => (st.readyHourData.isSome, st.isRunning))
      = some (true, false) :=
  ⟨rfl, rfl, rfl⟩

/-- C7, amended: `stop()` flips off the running flag and clears the ready
buffer, but an in-flight tick computation is not prevented from
publishing: its commit unconditionally writes the composed snapshot into
the stopped instance's buffer. -/
theorem claim_C7_amended (s : CitySimulation.State)
    (p : CitySimulation.TickPending) (draws : List (EventTemplate × ℕ))
    (h : s.isRunning = true) :
    (CitySimulation.stop s).readyHourData = none ∧
    (CitySimulation.stop s).isRunning = false ∧
    (CitySimulation.tickCommit (CitySimulation.stop s) p draws).1.readyHourData
        ≠ none ∧
    (CitySimulation.tickCommit (CitySimulation.stop s) p draws).1.isRunning
        = false := by
  unfold CitySimulation.stop CitySimulation.tickCommit
  simp only [h, if_true]
  refine ⟨trivial, trivial, ?_, ?_⟩ <;> (split <;> simp)

/-- A concrete pending tick snapshot. -/
def cPending : CitySimulation.TickPending :=
  { targetTime := 1700000000000
    weather := WeatherSimulator.generateFallbackWeather "edinburgh"
      1700000000000 cWeatherRand
    events_active_count := 0
    events_scheduled_count := 0
    events_completed_count := 0
    traffic := c2Result }

/-- Witness for the amended C7 on the concrete instance. -/
theorem claim_C7_amended_witness :
    (CitySimulation.stop cSimState).readyHourData = none ∧
    (CitySimulation.stop cSimState).isRunning = false ∧
    (CitySimulation.tickCommit (CitySimulation.stop cSimState) cPending
        []).1.readyHourData ≠ none ∧
    (CitySimulation.tickCommit (CitySimulation.stop cSimState) cPending
        []).1.isRunning = false :=
  claim_C7_amended cSimState cPending [] rfl

/-- A state reached by `generateInitialEvents` with the valid draw of four
initial events, all from `cTmpl` with `hoursInFuture = 48`, generated at
noon of day 0. -/
def c3Initial : EventsManager.State :=
  EventsManager.generateInitialEvents
    [(cTmpl, 48), (cTmpl, 48), (cTmpl, 48), (cTmpl, 48)]
    EventsManager.initialState (12 * msPerHour)

/-- That state after one `processEventsForHour` at midnight of day 2 (the
common snapped start of all four events). -/
def c3After : EventsManager.State :=
  EventsManager.processEventsForHour 172800000 false cTmpl 48 c3Initial

/-- C3, counterexample: four initial events share one activation instant,
and `activateScheduledEvents` activates all of them — the activation path
never consults `maxConcurrentEvents`, so four events hold status `active`
at once, exceeding the claimed bound of 3. -/
theorem claim_C3_counterexample :
    c3After.activeEvents.length = 4 ∧
    c3After.activeEvents.all (fun e => decide (e.status = EventStatus.active))
      = true ∧
    EventsManager.maxConcurrentEvents < 4 := by
  refine ⟨by decide, by decide, by decide⟩

/-- C3, amended: the bound is enforced only on the generation side:
`canGenerateNewEvent` returns false whenever `maxConcurrentEvents` or more
events are active, so the per-tick path generates no new event then —
but activation itself is unbounded, and the number of simultaneously
active events can exceed 3 (see the counterexample). -/
theorem claim_C3_amended (s : EventsManager.State) (now : ℕ)
    (h : EventsManager.maxConcurrentEvents ≤ s.activeEvents.length) :
    EventsManager.canGenerateNewEvent s now = false := by
  unfold EventsManager.canGenerateNewEvent
  by_cases hc : EventsManager.countGet s.dailyEventCounts (getDateKey now) ≥
      EventsManager.maxEventsPerDay
  · simp [hc]
  · simp [hc, h]

/-- A state with three active events. -/
def cThreeActive : EventsManager.State :=
  { EventsManager.initialState with
      activeEvents := [cLegacyEvent, cLegacyEvent, cLegacyEvent] }

/-- Witness for the amended C3. -/
theorem claim_C3_amended_witness :
    EventsManager.canGenerateNewEvent cThreeActive 0 = false :=
  claim_C3_amended cThreeActive 0 (by decide)

namespace EventsManager

/-- Unfolding `countGet` over a cons cell. -/
lemma countGet_cons (p : ℕ × ℕ) (rest : DailyCounts) (k : ℕ) :
    countGet (p :: rest) k = if p.1 = k then p.2 else countGet rest k := by
  unfold countGet
  by_cases h : p.1 = k
  · rw [List.find?_cons_of_pos _ (by simpa using h), if_pos h]
  · rw [List.find?_cons_of_neg _ (by simpa using h), if_neg h]

/-- Setting a key stores exactly that value. -/
lemma countGet_countSet_same (m : DailyCounts) (k v : ℕ) :
    countGet (countSet m k v) k = v := by
  induction m with
  | nil => simp [countSet, countGet_cons]
  | cons p rest ih =>
      unfold countSet
      by_cases hp : p.1 = k
      · rw [if_pos hp]
        simp [countGet_cons]
      · rw [if_neg hp, countGet_cons, if_neg hp]
        exact ih

/-- Setting one key leaves every other key's count unchanged. -/
lemma countGet_countSet_other (m : DailyCounts) (k v k2 : ℕ) (h : k2 ≠ k) :
    countGet (countSet m k v) k2 = countGet m k2 := by
  induction m with
  | nil =>
      show countGet [(k, v)] k2 = countGet [] k2
      rw [countGet_cons, if_neg (Ne.symm h)]
  | cons p rest ih =>
      unfold countSet
      by_cases hp : p.1 = k
      · rw [if_pos hp]
        have hp2 : ¬ p.1 = k2 := by rw [hp]; exact Ne.symm h
        rw [countGet_cons, countGet_cons, if_neg (Ne.symm h), if_neg hp2]
      · rw [if_neg hp, countGet_cons, countGet_cons, ih]

/-- Keys below the cleanup cutoff are zeroed by the daily-count filter. -/
lemma countGet_cleanup_of_lt (m : DailyCounts) (c k : ℕ) (h : k < c) :
    countGet (m.filter (fun p => !decide (p.1 < c))) k = 0 := by
  induction m with
  | nil => rfl
  | cons p rest ih =>
      by_cases hq : p.1 < c
      · rw [List.filter_cons_of_neg (by simp [hq])]
        exact ih
      · rw [List.filter_cons_of_pos (by simp [hq])]
        rw [countGet_cons, if_neg (by rintro rfl; exact hq h)]
        exact ih

/-- Keys at or above the cleanup cutoff keep their count under the
daily-count filter. -/
lemma countGet_cleanup_of_ge (m : DailyCounts) (c k : ℕ) (h : ¬ k < c) :
    countGet (m.filter (fun p => !decide (p.1 < c))) k = countGet m k := by
  induction m with
  | nil => rfl
  | cons p rest ih =>
      by_cases hq : p.1 < c
      · rw [List.filter_cons_of_neg (by simp [hq])]
        rw [ih, countGet_cons, if_neg (by rintro rfl; exact h hq)]
      · rw [List.filter_cons_of_pos (by simp [hq])]
        rw [countGet_cons, countGet_cons, ih]

/-- The daily-count cleanup never increases a key's count. -/
lemma countGet_cleanup_le (m : DailyCounts) (c k : ℕ) :
    countGet (m.filter (fun p => !decide (p.1 < c))) k ≤ countGet m k := by
  by_cases h : k < c
  · rw [countGet_cleanup_of_lt m c k h]
    exact Nat.zero_le _
  · rw [countGet_cleanup_of_ge m c k h]

/-- When `canGenerateNewEvent` permits generation, the current date's
recorded count is below the daily cap. -/
lemma canGenerate_daily_lt {s : State} {now : ℕ}
    (h : canGenerateNewEvent s now = true) :
    countGet s.dailyEventCounts (getDateKey now) < maxEventsPerDay := by
  by_contra hge
  push_neg at hge
  have hfalse : canGenerateNewEvent s now = false := by
    unfold canGenerateNewEvent
    simp [hge]
  rw [hfalse] at h
  exact absurd h (by simp)

/-- The three maintenance passes before the rate-limit check leave the
daily counts untouched. -/
lemma maintenance_daily_counts (now : ℕ) (s : State) :
    (cleanupOldCompletedEvents (moveExpiredEventsToCompleted now
      (activateScheduledEvents now s))).dailyEventCounts = s.dailyEventCounts := by
  unfold cleanupOldCompletedEvents
  split <;> rfl

end EventsManager

/-- C4, counterexample: `generateInitialEvents` with the valid draw of
three events records three generations on the generation date —
`dailyEventCounts` for that day reaches 3, above `maxEventsPerDay = 2`,
because the initial-generation path never consults
`canGenerateNewEvent`. -/
theorem claim_C4_counterexample :
    EventsManager.countGet
      (EventsManager.generateInitialEvents [(cTmpl, 48), (cTmpl, 48), (cTmpl, 48)]
        EventsManager.initialState (12 * msPerHour)).dailyEventCounts
      (getDateKey (12 * msPerHour)) = 3 ∧
    EventsManager.maxEventsPerDay < 3 := by
  refine ⟨by decide, by decide⟩

/-- C4, amended: the daily cap is enforced only on the per-tick path:
one `processEventsForHour` never raises any date's recorded count above
the larger of its previous value and `maxEventsPerDay` (generation is
skipped once the cap is reached).  The initial and forced paths
(`generateInitialEvents`, `generateMoreEvents`) bypass the check and can
exceed the cap, per the counterexample. -/
theorem claim_C4_amended (s : EventsManager.State) (now : ℕ) (genHit : Bool)
    (tmpl : EventTemplate) (hoursInFuture : ℕ) (k : ℕ) :
    EventsManager.countGet
      (EventsManager.processEventsForHour now genHit tmpl hoursInFuture
        s).dailyEventCounts k ≤
      max (EventsManager.countGet s.dailyEventCounts k)
        EventsManager.maxEventsPerDay := by
  have h4 : (EventsManager.cleanupDailyEventCounts now
      (EventsManager.cleanupOldCompletedEvents
        (EventsManager.moveExpiredEventsToCompleted now
          (EventsManager.activateScheduledEvents now s)))).dailyEventCounts =
      s.dailyEventCounts.filter
        (fun p => !decide (p.1 < getDateKey (now - 7 * msPerDay))) := by
    unfold EventsManager.cleanupDailyEventCounts
    rw [EventsManager.maintenance_daily_counts]
  have hfilter := EventsManager.countGet_cleanup_le s.dailyEventCounts
    (getDateKey (now - 7 * msPerDay)) k
  show EventsManager.countGet
    (if (EventsManager.canGenerateNewEvent
        (EventsManager.cleanupDailyEventCounts now
          (EventsManager.cleanupOldCompletedEvents
            (EventsManager.moveExpiredEventsToCompleted now
              (EventsManager.activateScheduledEvents now s)))) now && genHit) = true
      then EventsManager.generateRandomEvent tmpl hoursInFuture
        (EventsManager.cleanupDailyEventCounts now
          (EventsManager.cleanupOldCompletedEvents
            (EventsManager.moveExpiredEventsToCompleted now
              (EventsManager.activateScheduledEvents now s)))) now
      else EventsManager.cleanupDailyEventCounts now
        (EventsManager.cleanupOldCompletedEvents
          (EventsManager.moveExpiredEventsToCompleted now
            (EventsManager.activateScheduledEvents now s)))).dailyEventCounts k ≤ _
  split
  case isTrue hcan =>
    rw [Bool.and_eq_true] at hcan
    have hcantrue := hcan.1
    have hlt := EventsManager.canGenerate_daily_lt hcantrue
    rw [h4] at hlt
    show EventsManager.countGet (EventsManager.countSet _ (getDateKey now) _) k ≤ _
    by_cases hk : k = getDateKey now
    · subst hk
      rw [EventsManager.countGet_countSet_same, h4]
      have := hfilter
      simp only [EventsManager.maxEventsPerDay] at hlt ⊢
      omega
    · rw [EventsManager.countGet_countSet_other _ _ _ _ hk, h4]
      exact le_trans hfilter (le_max_left _ _)
  case isFalse =>
    rw [h4]
    exact le_trans hfilter (le_max_left _ _)

section MaxFoldLemmas

/-- Folding `max` over a list absorbs an extra `max` on the base. -/
lemma foldr_max_base (l : List ℚ) (b v : ℚ) :
    l.foldr max (max b v) = max v (l.foldr max b) := by
  induction l with
  | nil => exact max_comm b v
  | cons x t ih =>
      simp only [List.foldr_cons, ih]
      rw [max_left_comm]

/-- Two `max` folds over the same base commute. -/
lemma foldr_max_swap (l1 l2 : List ℚ) (b : ℚ) :
    l2.foldr max (l1.foldr max b) = l1.foldr max (l2.foldr max b) := by
  induction l1 with
  | nil => rfl
  | cons x t ih =>
      show l2.foldr max (max x (t.foldr max b)) =
        max x (t.foldr max (l2.foldr max b))
      rw [max_comm x (t.foldr max b), foldr_max_base, ih]

/-- Every element is bounded by the `max` fold. -/
lemma le_foldr_max {l : List ℚ} {b : ℚ} : ∀ x ∈ l, x ≤ l.foldr max b := by
  induction l with
  | nil => intro x hx; cases hx
  | cons y t ih =>
      intro x hx
      rcases List.mem_cons.mp hx with rfl | hx2
      · exact le_max_left _ _
      · exact le_trans (ih x hx2) (le_max_right _ _)

/-- The base is bounded by the `max` fold. -/
lemma base_le_foldr_max (l : List ℚ) (b : ℚ) : b ≤ l.foldr max b := by
  induction l with
  | nil => exact le_refl _
  | cons y t ih => exact le_trans ih (le_max_right _ _)

/-- The `max` fold is an element or the base. -/
lemma foldr_max_mem (l : List ℚ) (b : ℚ) :
    l.foldr max b ∈ l ∨ l.foldr max b = b := by
  induction l with
  | nil => exact Or.inr rfl
  | cons x t ih =>
      simp only [List.foldr_cons]
      rcases le_total x (t.foldr max b) with hle | hle
      · rw [max_eq_right hle]
        rcases ih with hm | hb
        · exact Or.inl (List.mem_cons_of_mem _ hm)
        · rw [hb]; exact Or.inr rfl
      · rw [max_eq_left hle]
        exact Or.inl (List.mem_cons_self _ _)

end MaxFoldLemmas

namespace TrafficSimulator

/-- The empty map reads 1 everywhere. -/
lemma zmLookup_empty (z : String) : zmLookup (fun _ => none) z = 1 := rfl

/-- A stored `zmStore` read back at its own key is the stored maximum,
provided the map's reads are already ≥ 1 (so the stored value is nonzero
and the `|| 1.0` fallback does not fire). -/
lemma zmLookup_store_same (m : ZoneImpactMap) (code : String) (v : ℚ)
    (hm : 1 ≤ zmLookup m code) :
    zmLookup (zmStore m code v) code = max (zmLookup m code) v := by
  have hne : ¬ (max (zmLookup m code) v = 0) := by
    intro h0
    have h1 : (1 : ℚ) ≤ max (zmLookup m code) v := le_trans hm (le_max_left _ _)
    rw [h0] at h1
    norm_num at h1
  show jsOrOneOpt (if code = code then some (max (zmLookup m code) v)
    else m code) = max (zmLookup m code) v
  rw [if_pos rfl]
  show (if max (zmLookup m code) v = 0 then 1 else max (zmLookup m code) v)
    = max (zmLookup m code) v
  rw [if_neg hne]

/-- A `zmStore` leaves other keys' reads unchanged. -/
lemma zmLookup_store_other (m : ZoneImpactMap) (code : String) (v : ℚ)
    (z : String) (h : z ≠ code) :
    zmLookup (zmStore m code v) z = zmLookup m z := by
  show jsOrOneOpt (if z = code then some (max (zmLookup m code) v)
    else m z) = jsOrOneOpt (m z)
  rw [if_neg h]

/-- The inner per-event fold keeps every read ≥ 1. -/
lemma zmLookup_inner_fold_ge_one (e : SimEvent)
    (pairs : List (ℕ × String)) (m : ZoneImpactMap)
    (hm : ∀ c, 1 ≤ zmLookup m c) :
    ∀ c, 1 ≤ zmLookup (pairs.foldl
      (fun acc p => zmStore acc p.2 (eventZoneImpact e p.1)) m) c := by
  induction pairs generalizing m with
  | nil => exact hm
  | cons p ps ih =>
      intro c
      refine ih (zmStore m p.2 (eventZoneImpact e p.1)) ?_ c
      intro c2
      by_cases hc : c2 = p.2
      · subst hc
        rw [zmLookup_store_same m _ _ (hm _)]
        exact le_trans (hm _) (le_max_left _ _)
      · rw [zmLookup_store_other m _ _ _ hc]
        exact hm c2

/-- The inner per-event fold computes, at each zone, the maximum of that
event's contributions to the zone and the previous read. -/
lemma zmLookup_inner_fold_eq (e : SimEvent)
    (pairs : List (ℕ × String)) (m : ZoneImpactMap)
    (hm : ∀ c, 1 ≤ zmLookup m c) (z : String) :
    zmLookup (pairs.foldl
      (fun acc p => zmStore acc p.2 (eventZoneImpact e p.1)) m) z =
    ((pairs.filter (fun p => p.2 = z)).map
      (fun p => eventZoneImpact e p.1)).foldr max (zmLookup m z) := by
  induction pairs generalizing m with
  | nil => rfl
  | cons p ps ih =>
      by_cases hp : p.2 = z
      · rw [List.filter_cons_of_pos (by simpa using hp)]
        simp only [List.foldl_cons, List.map_cons, List.foldr_cons]
        rw [ih (zmStore m p.2 (eventZoneImpact e p.1)) (by
          intro c2
          by_cases hc : c2 = p.2
          · subst hc
            rw [zmLookup_store_same m _ _ (hm _)]
            exact le_trans (hm _) (le_max_left _ _)
          · rw [zmLookup_store_other m _ _ _ hc]
            exact hm c2)]
        rw [← hp]
        rw [zmLookup_store_same m _ _ (hm _)]
        rw [foldr_max_base]
      · rw [List.filter_cons_of_neg (by simpa using hp)]
        simp only [List.foldl_cons]
        rw [ih (zmStore m p.2 (eventZoneImpact e p.1)) (by
          intro c2
          by_cases hc : c2 = p.2
          · subst hc
            rw [zmLookup_store_same m _ _ (hm _)]
            exact le_trans (hm _) (le_max_left _ _)
          · rw [zmLookup_store_other m _ _ _ hc]
            exact hm c2)]
        rw [zmLookup_store_other m _ _ _ (fun hzz => hp hzz.symm)]

/-- The outer fold over events keeps every read ≥ 1. -/
lemma zmLookup_events_fold_ge_one (events : List SimEvent) (m : ZoneImpactMap)
    (hm : ∀ c, 1 ≤ zmLookup m c) :
    ∀ c, 1 ≤ zmLookup (events.foldl (fun acc e => applyEventImpacts e acc) m) c := by
  induction events generalizing m with
  | nil => exact hm
  | cons e es ih =>
      intro c
      exact ih (applyEventImpacts e m)
        (zmLookup_inner_fold_ge_one e e.affected_datazones.enum m hm) c

/-- The outer fold over events computes, at each zone, the maximum of all
individual contributions and the initial read. -/
lemma zmLookup_events_fold_eq (events : List SimEvent) (m : ZoneImpactMap)
    (hm : ∀ c, 1 ≤ zmLookup m c) (z : String) :
    zmLookup (events.foldl (fun acc e => applyEventImpacts e acc) m) z =
      (individualImpacts events z).foldr max (zmLookup m z) := by
  induction events generalizing m with
  | nil => rfl
  | cons e es ih =>
      simp only [List.foldl_cons, individualImpacts, List.foldr_cons]
      rw [show (applyEventImpacts e m) = e.affected_datazones.enum.foldl
        (fun acc p => zmStore acc p.2 (eventZoneImpact e p.1)) m from rfl]
      rw [ih _ (zmLookup_inner_fold_ge_one e e.affected_datazones.enum m hm)]
      rw [zmLookup_inner_fold_eq e e.affected_datazones.enum m hm z]
      rw [List.foldr_append]
      rw [show (individualImpacts es z) = es.foldr (fun e2 acc =>
        (e2.affected_datazones.enum.filter (fun p => p.2 = z)).map
          (fun p => eventZoneImpact e2 p.1) ++ acc) [] from rfl]
      exact foldr_max_swap _ _ _

/-- The built impact map reads, at each zone, the `max` fold of the
individual contributions over base 1. -/
lemma zmLookup_calculate (events : List SimEvent) (z : String) :
    zmLookup (calculateZoneEventImpacts events) z =
      (individualImpacts events z).foldr max 1 := by
  unfold calculateZoneEventImpacts
  rw [zmLookup_events_fold_eq events (fun _ => none)
    (fun c => le_of_eq (zmLookup_empty c).symm) z]
  rw [zmLookup_empty]

/-- With a nonnegative impact factor, every contribution is ≥ 1. -/
lemma eventZoneImpact_ge_one {e : SimEvent} (h : 0 ≤ e.impact_factor) (i : ℕ) :
    1 ≤ eventZoneImpact e i := by
  have hf : 0 ≤ jsOrNum e.impact_factor (3/10) := by
    unfold jsOrNum
    split
    · norm_num
    · exact h
  unfold eventZoneImpact
  split
  · linarith
  · have hmaxpos : (0 : ℚ) ≤ max (3/10) (1 - (i : ℚ)/10) :=
      le_trans (by norm_num) (le_max_left _ _)
    nlinarith

/-- Every individual contribution comes from some event at some index. -/
lemma individualImpacts_mem {events : List SimEvent} {z : String} {x : ℚ}
    (hx : x ∈ individualImpacts events z) :
    ∃ e ∈ events, ∃ i : ℕ, x = eventZoneImpact e i := by
  induction events with
  | nil => cases hx
  | cons e es ih =>
      simp only [individualImpacts, List.foldr_cons, List.mem_append] at hx
      rcases hx with hx1 | hx2
      · obtain ⟨p, _, rfl⟩ := List.mem_map.mp hx1
        exact ⟨e, List.mem_cons_self _ _, p.1, rfl⟩
      · obtain ⟨e2, he2, i, rfl⟩ := ih hx2
        exact ⟨e2, List.mem_cons_of_mem _ he2, i, rfl⟩

end TrafficSimulator

/-- C9: when several active events affect the same zone in one tick, the
event-impact multiplier applied to the zone is the maximum — never the
sum — of the individual contributions (primary zone `1 + impact_factor`,
secondary zones a decayed fraction): the looked-up multiplier bounds every
individual contribution, it is itself one of them (or the neutral 1 when
none exists), and with the catalog's nonnegative impact factors it is
exactly the maximum of the contributions whenever the zone is affected at
all. -/
theorem claim_C9_zone_impact_is_max
    (events : List SimEvent) (code : String) :
    (∀ x ∈ TrafficSimulator.individualImpacts events code,
      x ≤ TrafficSimulator.zmLookup
        (TrafficSimulator.calculateZoneEventImpacts events) code) ∧
    (TrafficSimulator.zmLookup
        (TrafficSimulator.calculateZoneEventImpacts events) code ∈
          TrafficSimulator.individualImpacts events code ∨
      TrafficSimulator.zmLookup
        (TrafficSimulator.calculateZoneEventImpacts events) code = 1) ∧
    ((∀ e ∈ events, 0 ≤ e.impact_factor) →
      TrafficSimulator.individualImpacts events code ≠ [] →
      TrafficSimulator.zmLookup
        (TrafficSimulator.calculateZoneEventImpacts events) code ∈
          TrafficSimulator.individualImpacts events code) := by
  rw [TrafficSimulator.zmLookup_calculate]
  refine ⟨fun x hx => le_foldr_max x hx, foldr_max_mem _ _, ?_⟩
  intro hpos hne
  rcases foldr_max_mem (TrafficSimulator.individualImpacts events code) 1 with hm | hb
  · exact hm
  · obtain ⟨x0, hx0⟩ := List.exists_mem_of_ne_nil _ hne
    obtain ⟨e, he, i, rfl⟩ := TrafficSimulator.individualImpacts_mem hx0
    have h1 : 1 ≤ TrafficSimulator.eventZoneImpact e i :=
      TrafficSimulator.eventZoneImpact_ge_one (hpos e he) i
    have h2 := le_foldr_max (b := (1 : ℚ)) _ hx0
    rw [hb] at h2
    have : TrafficSimulator.eventZoneImpact e i = 1 := le_antisymm h2 h1
    rw [hb, ← this]
    exact hx0

/-- A concrete active event with a primary and a secondary zone. -/
def cE1 : SimEvent :=
  { id := 1
    type := "festival"
    name := "A"
    affected_datazones := ["A", "B"]
    impact_factor := 1/2
    start_hour := 0
    end_hour := 6
    duration_hours := 6
    scheduled_start_time := 0
    actual_start_time := some 0
    actual_end_time := some 21600000
    status := .active }

/-- A second concrete active event whose primary zone is the first
event's secondary zone. -/
def cE2 : SimEvent :=
  { id := 2
    type := "parade"
    name := "B"
    affected_datazones := ["B"]
    impact_factor := 3/10
    start_hour := 0
    end_hour := 6
    duration_hours := 6
    scheduled_start_time := 0
    actual_start_time := some 0
    actual_end_time := some 21600000
    status := .active }

/-- Witness for C9: zone B is hit by both events, and the applied
multiplier bounds each contribution and is itself one of them. -/
theorem claim_C9_zone_impact_is_max_witness :
    TrafficSimulator.eventZoneImpact cE1 1 ≤
      TrafficSimulator.zmLookup
        (TrafficSimulator.calculateZoneEventImpacts [cE1, cE2]) "B" ∧
    TrafficSimulator.zmLookup
        (TrafficSimulator.calculateZoneEventImpacts [cE1, cE2]) "B" ∈
      TrafficSimulator.individualImpacts [cE1, cE2] "B" :=
  ⟨(claim_C9_zone_impact_is_max [cE1, cE2] "B").1 _
      (by rw [show TrafficSimulator.individualImpacts [cE1, cE2] "B" =
            [TrafficSimulator.eventZoneImpact cE1 1,
              TrafficSimulator.eventZoneImpact cE2 0] from rfl]
          exact List.mem_cons_self _ _),
    (claim_C9_zone_impact_is_max [cE1, cE2] "B").2.2
      (by intro e he
          rcases List.mem_cons.mp he with rfl | he2
          · norm_num [cE1]
          · rcases List.mem_cons.mp he2 with rfl | h3
            · norm_num [cE2]
            · cases h3)
      (by rw [show TrafficSimulator.individualImpacts [cE1, cE2] "B" =
            [TrafficSimulator.eventZoneImpact cE1 1,
              TrafficSimulator.eventZoneImpact cE2 0] from rfl]
          simp)⟩

/-- A manager state holding one freshly generated event (template `cTmpl`,
draw 48, generated at noon of day 0, scheduled for midnight of day 2). -/
def c6State : EventsManager.State :=
  EventsManager.generateRandomEvent cTmpl 48 EventsManager.initialState
    (12 * msPerHour)

/-- That state after the activation tick at midnight of day 2. -/
def c6Active : EventsManager.State :=
  EventsManager.processEventsForHour 172800000 false cTmpl 48 c6State

/-- That state after the completion tick six hours later. -/
def c6Done : EventsManager.State :=
  EventsManager.processEventsForHour 194400000 false cTmpl 48 c6Active

/-- C6, counterexample: while the event is merely `active` — before any
active→completed transition — its `actual_end_time` is already set
(to activation time + duration), and the completion step leaves it
unchanged: `actual_end_time` is set at the scheduled→active transition,
not at active→completed as claimed. -/
theorem claim_C6_counterexample :
    (c6Active.activeEvents.map (fun e => (e.status, e.actual_end_time)))
      = [(EventStatus.active, some 194400000)] ∧
    (c6Done.completedEvents.map (fun e => (e.status, e.actual_end_time)))
      = [(EventStatus.completed, some 194400000)] := by
  refine ⟨by decide, by decide⟩

namespace EventsManager

/-- Status/timestamp consistency of a manager state: scheduled events have
null timestamps, active and completed events have both set, and each
list's events carry its status. -/
structure WF (s : State) : Prop where
  schedOk : ∀ e ∈ s.scheduledEvents,
    e.status = EventStatus.scheduled ∧ e.actual_start_time = none ∧
      e.actual_end_time = none
  activeOk : ∀ e ∈ s.activeEvents,
    e.status = EventStatus.active ∧ e.actual_start_time ≠ none ∧
      e.actual_end_time ≠ none
  completedOk : ∀ e ∈ s.completedEvents,
    e.status = EventStatus.completed ∧ e.actual_start_time ≠ none ∧
      e.actual_end_time ≠ none

/-- One event record legally evolving into another within a tick at time
`now`: same identity, non-decreasing status rank, timestamps preserved
once set, and any timestamp change happens only at the scheduled→active
step, which sets `actual_start_time := now` and
`actual_end_time := now + duration`. -/
def evolvesTo (now : ℕ) (e e2 : SimEvent) : Prop :=
  e2.id = e.id ∧
  e.status.rank ≤ e2.status.rank ∧
  (∀ t, e.actual_start_time = some t → e2.actual_start_time = some t) ∧
  (∀ t, e.actual_end_time = some t → e2.actual_end_time = some t) ∧
  ((e2.actual_start_time ≠ e.actual_start_time ∨
      e2.actual_end_time ≠ e.actual_end_time) →
    e.status = EventStatus.scheduled ∧ e2.status ≠ EventStatus.scheduled ∧
      e2.actual_start_time = some now ∧
      e2.actual_end_time = some (now + e.duration_hours * msPerHour))

/-- Unchanged events evolve trivially. -/
lemma evolvesTo_refl (now : ℕ) (e : SimEvent) : evolvesTo now e e := by
  refine ⟨rfl, le_refl _, fun t ht => ht, fun t ht => ht, ?_⟩
  rintro (h | h) <;> exact absurd rfl h

/-- Activation is a legal evolution of a well-formed scheduled event. -/
lemma evolvesTo_activate (now : ℕ) {e : SimEvent}
    (hs : e.status = EventStatus.scheduled)
    (h1 : e.actual_start_time = none) (h2 : e.actual_end_time = none) :
    evolvesTo now e (activateEvent now e) := by
  refine ⟨rfl, ?_, ?_, ?_, ?_⟩
  · rw [hs]; exact Nat.zero_le _
  · intro t ht; rw [h1] at ht; cases ht
  · intro t ht; rw [h2] at ht; cases ht
  · intro _
    exact ⟨hs, by simp [activateEvent], rfl, rfl⟩

/-- Completion is a legal evolution of a well-formed active event. -/
lemma evolvesTo_complete (now : ℕ) {e : SimEvent}
    (hs : e.status = EventStatus.active) :
    evolvesTo now e { e with status := EventStatus.completed } := by
  refine ⟨rfl, ?_, fun t ht => ht, fun t ht => ht, ?_⟩
  · rw [hs]; exact Nat.le_succ _
  · rintro (h | h) <;> exact absurd rfl h

/-- Activation immediately followed by completion (a zero-duration event)
is a legal evolution of a well-formed scheduled event. -/
lemma evolvesTo_activate_complete (now : ℕ) {e : SimEvent}
    (hs : e.status = EventStatus.scheduled)
    (h1 : e.actual_start_time = none) (h2 : e.actual_end_time = none) :
    evolvesTo now e { activateEvent now e with status := EventStatus.completed } := by
  refine ⟨rfl, ?_, ?_, ?_, ?_⟩
  · rw [hs]; exact Nat.zero_le _
  · intro t ht; rw [h1] at ht; cases ht
  · intro t ht; rw [h2] at ht; cases ht
  · intro _
    exact ⟨hs, by simp, rfl, rfl⟩

/-- The cleanup pass only removes completed events. -/
lemma cleanup_completed_subset (s : State) :
    ∀ e ∈ (cleanupOldCompletedEvents s).completedEvents, e ∈ s.completedEvents := by
  unfold cleanupOldCompletedEvents
  split
  · intro e he
    exact (List.drop_sublist _ _).subset he
  · intro e he
    exact he

/-- Projections of the cleanup pass. -/
lemma cleanup_scheduled (s : State) :
    (cleanupOldCompletedEvents s).scheduledEvents = s.scheduledEvents := by
  unfold cleanupOldCompletedEvents
  split <;> rfl

/-- Projections of the cleanup pass. -/
lemma cleanup_active (s : State) :
    (cleanupOldCompletedEvents s).activeEvents = s.activeEvents := by
  unfold cleanupOldCompletedEvents
  split <;> rfl

/-- Any member of the scheduled list is a manager event. -/
lemma mem_allEvents_sched {s : State} {e : SimEvent}
    (h : e ∈ s.scheduledEvents) : e ∈ allEvents s := by
  unfold allEvents
  simp [List.mem_append, h]

/-- Any member of the active list is a manager event. -/
lemma mem_allEvents_active {s : State} {e : SimEvent}
    (h : e ∈ s.activeEvents) : e ∈ allEvents s := by
  unfold allEvents
  simp [List.mem_append, h]

/-- Any member of the completed list is a manager event. -/
lemma mem_allEvents_completed {s : State} {e : SimEvent}
    (h : e ∈ s.completedEvents) : e ∈ allEvents s := by
  unfold allEvents
  simp [List.mem_append, h]

/-- Origin of every event after the activate/expire/cleanup passes: each
is a legal evolution of some pre-step event. -/
lemma core_origin (now : ℕ) (s : State) (hwf : WF s) :
    ∀ e2 ∈ allEvents (cleanupOldCompletedEvents
      (moveExpiredEventsToCompleted now (activateScheduledEvents now s))),
      ∃ e ∈ allEvents s, evolvesTo now e e2 := by
  intro e2 h2
  unfold allEvents at h2
  rw [cleanup_scheduled, cleanup_active] at h2
  rcases List.mem_append.mp h2 with h2 | hac
  · rcases List.mem_append.mp h2 with hs | ha
    · -- still scheduled: untouched
      have hmem : e2 ∈ s.scheduledEvents :=
        (List.mem_filter.mp hs).1
      exact ⟨e2, mem_allEvents_sched hmem, evolvesTo_refl now e2⟩
    · -- active after the expiry filter
      have hmem := (List.mem_filter.mp ha).1
      rcases List.mem_append.mp hmem with hold | hnew
      · exact ⟨e2, mem_allEvents_active hold, evolvesTo_refl now e2⟩
      · obtain ⟨e0, he0, rfl⟩ := List.mem_map.mp hnew
        have he0s := (List.mem_filter.mp he0).1
        obtain ⟨hs0, h10, h20⟩ := hwf.schedOk e0 he0s
        exact ⟨e0, mem_allEvents_sched he0s, evolvesTo_activate now hs0 h10 h20⟩
  · -- completed
    have hc := cleanup_completed_subset _ e2 hac
    rcases List.mem_append.mp hc with hold | hnew
    · exact ⟨e2, mem_allEvents_completed hold, evolvesTo_refl now e2⟩
    · obtain ⟨e1, he1, rfl⟩ := List.mem_map.mp hnew
      have he1a := (List.mem_filter.mp he1).1
      rcases List.mem_append.mp he1a with h1old | h1new
      · have hs1 := (hwf.activeOk e1 h1old).1
        exact ⟨e1, mem_allEvents_active h1old, evolvesTo_complete now hs1⟩
      · obtain ⟨e0, he0, rfl⟩ := List.mem_map.mp h1new
        have he0s := (List.mem_filter.mp he0).1
        obtain ⟨hs0, h10, h20⟩ := hwf.schedOk e0 he0s
        exact ⟨e0, mem_allEvents_sched he0s,
          evolvesTo_activate_complete now hs0 h10 h20⟩

/-- The activate/expire/cleanup passes preserve well-formedness. -/
lemma core_WF (now : ℕ) (s : State) (hwf : WF s) :
    WF (cleanupOldCompletedEvents
      (moveExpiredEventsToCompleted now (activateScheduledEvents now s))) := by
  refine ⟨?_, ?_, ?_⟩
  · rw [cleanup_scheduled]
    intro e he
    exact hwf.schedOk e (List.mem_filter.mp he).1
  · rw [cleanup_active]
    intro e he
    have hmem := (List.mem_filter.mp he).1
    rcases List.mem_append.mp hmem with hold | hnew
    · exact hwf.activeOk e hold
    · obtain ⟨e0, _, rfl⟩ := List.mem_map.mp hnew
      exact ⟨rfl, by simp [activateEvent], by simp [activateEvent]⟩
  · intro e he
    have hc := cleanup_completed_subset _ e he
    rcases List.mem_append.mp hc with hold | hnew
    · exact hwf.completedOk e hold
    · obtain ⟨e1, he1, rfl⟩ := List.mem_map.mp hnew
      have he1a := (List.mem_filter.mp he1).1
      rcases List.mem_append.mp he1a with h1old | h1new
      · obtain ⟨_, hast, haet⟩ := hwf.activeOk e1 h1old
        exact ⟨rfl, hast, haet⟩
      · obtain ⟨e0, _, rfl⟩ := List.mem_map.mp h1new
        exact ⟨rfl, by simp [activateEvent], by simp [activateEvent]⟩

end EventsManager

/-- C6, amended: over any sequence of `processEventsForHour` calls on a
well-formed state, well-formedness is preserved and every event of the
post-state is either a legal evolution of a pre-state event — identity
kept, status rank non-decreasing (never reversed), timestamps preserved
once set, with any timestamp change happening only at the
scheduled→active step, which sets `actual_start_time := now` and
`actual_end_time := now + duration_hours` — or a freshly generated
scheduled event with both timestamps null.  In particular both timestamps
are set exactly once, at the scheduled→active transition:
`actual_end_time` is not set at active→completed, contrary to the claim
(see the counterexample); thereafter both remain fixed. -/
theorem claim_C6_amended (s : EventsManager.State) (now : ℕ) (genHit : Bool)
    (tmpl : EventTemplate) (hoursInFuture : ℕ) (hwf : EventsManager.WF s) :
    EventsManager.WF (EventsManager.processEventsForHour now genHit tmpl
      hoursInFuture s) ∧
    ∀ e2 ∈ EventsManager.allEvents (EventsManager.processEventsForHour now
      genHit tmpl hoursInFuture s),
      (∃ e ∈ EventsManager.allEvents s, EventsManager.evolvesTo now e e2) ∨
        (e2.status = EventStatus.scheduled ∧ e2.actual_start_time = none ∧
          e2.actual_end_time = none) := by
  have hcoreWF := EventsManager.core_WF now s hwf
  have hcore := EventsManager.core_origin now s hwf
  have hdWF : EventsManager.WF (EventsManager.cleanupDailyEventCounts now
      (EventsManager.cleanupOldCompletedEvents
        (EventsManager.moveExpiredEventsToCompleted now
          (EventsManager.activateScheduledEvents now s)))) :=
    ⟨hcoreWF.schedOk, hcoreWF.activeOk, hcoreWF.completedOk⟩
  have hdcore : ∀ e2 ∈ EventsManager.allEvents
      (EventsManager.cleanupDailyEventCounts now
        (EventsManager.cleanupOldCompletedEvents
          (EventsManager.moveExpiredEventsToCompleted now
            (EventsManager.activateScheduledEvents now s)))),
      ∃ e ∈ EventsManager.allEvents s, EventsManager.evolvesTo now e e2 :=
    fun e2 h2 => hcore e2 h2
  have hstep : EventsManager.processEventsForHour now genHit tmpl hoursInFuture s
      = (if (EventsManager.canGenerateNewEvent
            (EventsManager.cleanupDailyEventCounts now
              (EventsManager.cleanupOldCompletedEvents
                (EventsManager.moveExpiredEventsToCompleted now
                  (EventsManager.activateScheduledEvents now s)))) now
            && genHit) = true
          then EventsManager.generateRandomEvent tmpl hoursInFuture
            (EventsManager.cleanupDailyEventCounts now
              (EventsManager.cleanupOldCompletedEvents
                (EventsManager.moveExpiredEventsToCompleted now
                  (EventsManager.activateScheduledEvents now s)))) now
          else EventsManager.cleanupDailyEventCounts now
            (EventsManager.cleanupOldCompletedEvents
              (EventsManager.moveExpiredEventsToCompleted now
                (EventsManager.activateScheduledEvents now s)))) := rfl
  by_cases hcan : (EventsManager.canGenerateNewEvent
      (EventsManager.cleanupDailyEventCounts now
        (EventsManager.cleanupOldCompletedEvents
          (EventsManager.moveExpiredEventsToCompleted now
            (EventsManager.activateScheduledEvents now s)))) now
      && genHit) = true
  · rw [hstep, if_pos hcan]
    constructor
    · refine ⟨?_, ?_, ?_⟩
      · intro e he
        rcases List.mem_append.mp he with hold | hnew
        · exact hdWF.schedOk e hold
        · rw [List.mem_singleton.mp hnew]
          exact ⟨rfl, rfl, rfl⟩
      · intro e he
        exact hdWF.activeOk e he
      · intro e he
        exact hdWF.completedOk e he
    · intro e2 h2
      unfold EventsManager.allEvents at h2
      rcases List.mem_append.mp h2 with h2 | hac
      · rcases List.mem_append.mp h2 with hs | ha
        · rcases List.mem_append.mp hs with hold | hnew
          · exact Or.inl (hdcore e2 (EventsManager.mem_allEvents_sched hold))
          · rw [List.mem_singleton.mp hnew]
            exact Or.inr ⟨rfl, rfl, rfl⟩
        · exact Or.inl (hdcore e2 (EventsManager.mem_allEvents_active ha))
      · exact Or.inl (hdcore e2 (EventsManager.mem_allEvents_completed hac))
  · rw [hstep, if_neg hcan]
    exact ⟨hdWF, fun e2 h2 => Or.inl (hdcore e2 h2)⟩

/-- The event record held in `c6State` (as generated by
`generateRandomEvent` at noon of day 0). -/
def c6Event : SimEvent :=
  { id := 1
    type := cTmpl.type
    name := cTmpl.name
    affected_datazones := cTmpl.affected_datazones
    impact_factor := cTmpl.impact_factor
    start_hour := cTmpl.start_hour
    end_hour := cTmpl.end_hour
    duration_hours := cTmpl.duration_hours
    scheduled_start_time := EventsManager.eventStartTimeOf (12 * msPerHour) 48
      cTmpl.start_hour
    actual_start_time := none
    actual_end_time := none
    status := .scheduled }

/-- Witness for the amended C6 at the concrete activation tick. -/
theorem claim_C6_amended_witness :
    (∃ e ∈ EventsManager.allEvents c6State,
      EventsManager.evolvesTo 172800000 e
        (EventsManager.activateEvent 172800000 c6Event)) ∨
    ((EventsManager.activateEvent 172800000 c6Event).status
        = EventStatus.scheduled ∧
      (EventsManager.activateEvent 172800000 c6Event).actual_start_time = none ∧
      (EventsManager.activateEvent 172800000 c6Event).actual_end_time = none) :=
  (claim_C6_amended c6State 172800000 false cTmpl 48
      ⟨by decide, by decide, by decide⟩).2
    (EventsManager.activateEvent 172800000 c6Event)
    (by rw [show EventsManager.allEvents
          (EventsManager.processEventsForHour 172800000 false cTmpl 48 c6State)
          = [EventsManager.activateEvent 172800000 c6Event] from rfl]
        exact List.mem_singleton_self _)
